import Mathlib

/-!
Verification of the standard-claims flatten/unflatten codec
(`src/claims.rs` of Timshel/openidconnect-rs).

The `StandardClaims` entity, its constructor/setters, the `AddressClaim`
structure and the field table (names, shapes, declared order) are embedded
from `src/claims.rs`.  The generic flatten/unflatten engine
(`deserialize_fields!` / `serialize_fields!`), the `LocalizedClaim`
container and the helpers `split_language_tag_key`, `utc_to_seconds`,
`seconds_to_utc` live outside the given sources and are modelled from the
specification, as marked on each definition.

Wire values are modelled by a small JSON-like value type; the flat map is
an association list (serde emits and consumes map entries in sequence).
Opaque string newtypes (`SubjectIdentifier`, `EndUserName`, ...) are
modelled as `String`; `DateTime<Utc>` is modelled as an integer number of
nanoseconds since the Unix epoch, so that sub-second precision is visible.
-/

namespace Claims

/-- A wire value of the abstract structured map model: string, boolean,
integer, or nested object. -/
inductive Value where
  | str : String → Value
  | bool : Bool → Value
  | int : Int → Value
  | obj : List (String × Value) → Value

/-- The flat key/value map, in emission order. -/
abbrev FlatMap := List (String × Value)

/-- Structured decode errors of the claim-set decoder. -/
inductive DecodeError where
  | missingRequiredField : String → DecodeError
  | duplicateField : String → Option String → DecodeError
  | unexpectedLocalizedVariant : String → DecodeError
  | typeMismatch : String → DecodeError
deriving DecidableEq

/-- Modelled from the spec: the Localized Value Container, an ordered
mapping from `Option` language tag to a value, kept in insertion order
(`LocalizedClaim` is declared outside the given sources). -/
abbrev LocalizedClaim (T : Type) := List (Option String × T)

/-- Modelled from the spec: `insert` of the Localized Value Container
fails (returns `none`) if an entry for the tag already exists; otherwise
the new entry is appended in insertion order. -/
def LocalizedClaim.insertOpt (lc : LocalizedClaim T) (tag : Option String)
    (v : T) : Option (LocalizedClaim T) :=
  if tag ∈ lc.map Prod.fst then none else some (lc ++ [(tag, v)])

/-- `AddressClaim` from `src/claims.rs`: six independent optional scalar
sub-fields. -/
structure AddressClaim where
  formatted : Option String := none
  street_address : Option String := none
  locality : Option String := none
  region : Option String := none
  postal_code : Option String := none
  country : Option String := none
deriving DecidableEq

/-- `StandardClaims<GC>` from `src/claims.rs`, generic over the gender
claim type `GC`.  Field names and order follow the source struct. -/
structure StandardClaims (GC : Type) where
  sub : String
  name : Option (LocalizedClaim String) := none
  given_name : Option (LocalizedClaim String) := none
  family_name : Option (LocalizedClaim String) := none
  middle_name : Option (LocalizedClaim String) := none
  nickname : Option (LocalizedClaim String) := none
  preferred_username : Option String := none
  profile : Option (LocalizedClaim String) := none
  picture : Option (LocalizedClaim String) := none
  website : Option (LocalizedClaim String) := none
  email : Option String := none
  email_verified : Option Bool := none
  gender : Option GC := none
  birthday : Option String := none
  zoneinfo : Option String := none
  locale : Option String := none
  phone_number : Option String := none
  phone_number_verified : Option Bool := none
  address : Option AddressClaim := none
  updated_at : Option Int := none

/-- `StandardClaims::new` from `src/claims.rs`: constructed from a subject
identifier, every other field unset. -/
def StandardClaims.new (subject : String) : StandardClaims GC :=
  { sub := subject }

/-- `StandardClaims::set_subject` from `src/claims.rs`. -/
def StandardClaims.set_subject (x : StandardClaims GC) (v : String) :
    StandardClaims GC := { x with sub := v }

/-- Modelled from the spec (generated by `field_getters_setters!`, which is
outside the given sources): each setter returns an updated entity in which
only its own field is replaced. -/
def StandardClaims.set_name (x : StandardClaims GC)
    (v : Option (LocalizedClaim String)) : StandardClaims GC :=
  { x with name := v }

def StandardClaims.set_given_name (x : StandardClaims GC)
    (v : Option (LocalizedClaim String)) : StandardClaims GC :=
  { x with given_name := v }

def StandardClaims.set_family_name (x : StandardClaims GC)
    (v : Option (LocalizedClaim String)) : StandardClaims GC :=
  { x with family_name := v }

def StandardClaims.set_middle_name (x : StandardClaims GC)
    (v : Option (LocalizedClaim String)) : StandardClaims GC :=
  { x with middle_name := v }

def StandardClaims.set_nickname (x : StandardClaims GC)
    (v : Option (LocalizedClaim String)) : StandardClaims GC :=
  { x with nickname := v }

def StandardClaims.set_preferred_username (x : StandardClaims GC)
    (v : Option String) : StandardClaims GC :=
  { x with preferred_username := v }

def StandardClaims.set_profile (x : StandardClaims GC)
    (v : Option (LocalizedClaim String)) : StandardClaims GC :=
  { x with profile := v }

def StandardClaims.set_picture (x : StandardClaims GC)
    (v : Option (LocalizedClaim String)) : StandardClaims GC :=
  { x with picture := v }

def StandardClaims.set_website (x : StandardClaims GC)
    (v : Option (LocalizedClaim String)) : StandardClaims GC :=
  { x with website := v }

def StandardClaims.set_email (x : StandardClaims GC)
    (v : Option String) : StandardClaims GC :=
  { x with email := v }

def StandardClaims.set_email_verified (x : StandardClaims GC)
    (v : Option Bool) : StandardClaims GC :=
  { x with email_verified := v }

def StandardClaims.set_gender (x : StandardClaims GC)
    (v : Option GC) : StandardClaims GC :=
  { x with gender := v }

def StandardClaims.set_birthday (x : StandardClaims GC)
    (v : Option String) : StandardClaims GC :=
  { x with birthday := v }

def StandardClaims.set_zoneinfo (x : StandardClaims GC)
    (v : Option String) : StandardClaims GC :=
  { x with zoneinfo := v }

def StandardClaims.set_locale (x : StandardClaims GC)
    (v : Option String) : StandardClaims GC :=
  { x with locale := v }

def StandardClaims.set_phone_number (x : StandardClaims GC)
    (v : Option String) : StandardClaims GC :=
  { x with phone_number := v }

def StandardClaims.set_phone_number_verified (x : StandardClaims GC)
    (v : Option Bool) : StandardClaims GC :=
  { x with phone_number_verified := v }

def StandardClaims.set_address (x : StandardClaims GC)
    (v : Option AddressClaim) : StandardClaims GC :=
  { x with address := v }

def StandardClaims.set_updated_at (x : StandardClaims GC)
    (v : Option Int) : StandardClaims GC :=
  { x with updated_at := v }

/-- Splits a list of characters on the first occurrence of the
delimiter character. -/
def splitFirstHash : List Char → List Char × Option (List Char)
  | [] => ([], none)
  | c :: cs =>
    if c = '#' then ([], some cs)
    else
      let r := splitFirstHash cs
      (c :: r.1, r.2)

/-- Modelled from the spec: `split_language_tag_key`, which is outside the
given sources.  Splits a flat-map key on the first occurrence of the
delimiter character into the base field name and an optional language tag;
no delimiter yields tag `none`, an empty suffix yields `some ""`. -/
def split_language_tag_key (key : String) : String × Option String :=
  let r := splitFirstHash key.data
  (⟨r.1⟩, r.2.map fun l => ⟨l⟩)

/-- Modelled from the spec: `utc_to_seconds` (outside the given sources)
converts a point in time (nanoseconds since the Unix epoch) to an integer
count of whole seconds since the epoch, with fractional seconds truncated
toward zero. -/
def utc_to_seconds (t : Int) : Int :=
  Int.sign t * Int.ofNat (t.natAbs / 1000000000)

/-- Modelled from the spec: `seconds_to_utc` (outside the given sources)
maps an integer count of seconds since the Unix epoch back to the
corresponding point in time (nanoseconds since the epoch). -/
def seconds_to_utc (s : Int) : Int := s * 1000000000

/-- A (de)serialization capability for a caller-supplied claim type, as
required of the gender type parameter: a structural encoder and decoder
over the wire value model. -/
structure Codec (α : Type) where
  enc : α → Value
  dec : Value → Option α

/-- The codec of a plain string-valued gender claim (e.g. the core gender
claim, a string newtype). -/
def strCodec : Codec String where
  enc := Value.str
  dec := fun v => match v with | .str s => some s | _ => none

/-- Decode a wire value as a string-like scalar; anything else is a type
mismatch for the named field. -/
def decStr (fieldname : String) : Value → Except DecodeError String
  | .str s => .ok s
  | _ => .error (.typeMismatch fieldname)

/-- Decode a wire value as a boolean. -/
def decBool (fieldname : String) : Value → Except DecodeError Bool
  | .bool b => .ok b
  | _ => .error (.typeMismatch fieldname)

/-- Decode a wire value as an integer. -/
def decInt (fieldname : String) : Value → Except DecodeError Int
  | .int n => .ok n
  | _ => .error (.typeMismatch fieldname)

/-- Modelled from the spec (decoder step of `deserialize_fields!`, outside
the given sources), plain scalar field: a tag suffix is rejected with
`unexpectedLocalizedVariant`; an already-populated slot is a
`duplicateField`; otherwise the value is decoded. -/
def putPlain (fieldname : String) (tag : Option String) (slot : Option α)
    (d : Value → Except DecodeError α) (v : Value) : Except DecodeError α :=
  match tag with
  | some _ => .error (.unexpectedLocalizedVariant fieldname)
  | none =>
    match slot with
    | some _ => .error (.duplicateField fieldname none)
    | none => d v

/-- Modelled from the spec (decoder step of `deserialize_fields!`, outside
the given sources), localized field: the value is decoded and inserted
into the container under the tag; an existing entry for the same tag is a
`duplicateField` with that tag. -/
def putLoc (fieldname : String) (tag : Option String)
    (lc : LocalizedClaim String) (v : Value) :
    Except DecodeError (LocalizedClaim String) :=
  match decStr fieldname v with
  | .error e => .error e
  | .ok s =>
    match lc.insertOpt tag s with
    | none => .error (.duplicateField fieldname tag)
    | some lc2 => .ok lc2

/-- Deserialization of `AddressClaim` (derived in `src/claims.rs`): a
single pass over the nested object's entries; each known sub-field is
decoded at most once, unknown entries are ignored. -/
def decodeAddressLoop : AddressClaim → List (String × Value) →
    Except DecodeError AddressClaim
  | a, [] => .ok a
  | a, (k, v) :: rest =>
    if k = "formatted" then
      match a.formatted with
      | some _ => .error (.duplicateField "formatted" none)
      | none =>
        match decStr "formatted" v with
        | .error e => .error e
        | .ok s => decodeAddressLoop { a with formatted := some s } rest
    else if k = "street_address" then
      match a.street_address with
      | some _ => .error (.duplicateField "street_address" none)
      | none =>
        match decStr "street_address" v with
        | .error e => .error e
        | .ok s => decodeAddressLoop { a with street_address := some s } rest
    else if k = "locality" then
      match a.locality with
      | some _ => .error (.duplicateField "locality" none)
      | none =>
        match decStr "locality" v with
        | .error e => .error e
        | .ok s => decodeAddressLoop { a with locality := some s } rest
    else if k = "region" then
      match a.region with
      | some _ => .error (.duplicateField "region" none)
      | none =>
        match decStr "region" v with
        | .error e => .error e
        | .ok s => decodeAddressLoop { a with region := some s } rest
    else if k = "postal_code" then
      match a.postal_code with
      | some _ => .error (.duplicateField "postal_code" none)
      | none =>
        match decStr "postal_code" v with
        | .error e => .error e
        | .ok s => decodeAddressLoop { a with postal_code := some s } rest
    else if k = "country" then
      match a.country with
      | some _ => .error (.duplicateField "country" none)
      | none =>
        match decStr "country" v with
        | .error e => .error e
        | .ok s => decodeAddressLoop { a with country := some s } rest
    else decodeAddressLoop a rest

/-- Decode a wire value as a whole `AddressClaim` in one step. -/
def decAddress (fieldname : String) : Value → Except DecodeError AddressClaim
  | .obj kvs => decodeAddressLoop {} kvs
  | _ => .error (.typeMismatch fieldname)

/-- The decoder's intermediate state: one slot per known field; localized
slots accumulate container entries in insertion order. -/
structure DecState (GC : Type) where
  sub : Option String := none
  name : LocalizedClaim String := []
  given_name : LocalizedClaim String := []
  family_name : LocalizedClaim String := []
  middle_name : LocalizedClaim String := []
  nickname : LocalizedClaim String := []
  preferred_username : Option String := none
  profile : LocalizedClaim String := []
  picture : LocalizedClaim String := []
  website : LocalizedClaim String := []
  email : Option String := none
  email_verified : Option Bool := none
  gender : Option GC := none
  birthday : Option String := none
  zoneinfo : Option String := none
  locale : Option String := none
  phone_number : Option String := none
  phone_number_verified : Option Bool := none
  address : Option AddressClaim := none
  updated_at : Option Int := none

/-- Modelled from the spec (dispatch of `deserialize_fields!` over the
field table of `src/claims.rs`): one decoded key/value pair applied to the
state.  `ok none` means the base name is unknown and the pair is deferred
to the extension bucket. -/
def applyKV (c : Codec GC) (st : DecState GC) (base : String)
    (tag : Option String) (v : Value) :
    Except DecodeError (Option (DecState GC)) :=
  if base = "sub" then
    (putPlain "sub" tag st.sub (decStr "sub") v).map fun s =>
      some { st with sub := some s }
  else if base = "name" then
    (putLoc "name" tag st.name v).map fun l => some { st with name := l }
  else if base = "given_name" then
    (putLoc "given_name" tag st.given_name v).map fun l =>
      some { st with given_name := l }
  else if base = "family_name" then
    (putLoc "family_name" tag st.family_name v).map fun l =>
      some { st with family_name := l }
  else if base = "middle_name" then
    (putLoc "middle_name" tag st.middle_name v).map fun l =>
      some { st with middle_name := l }
  else if base = "nickname" then
    (putLoc "nickname" tag st.nickname v).map fun l =>
      some { st with nickname := l }
  else if base = "preferred_username" then
    (putPlain "preferred_username" tag st.preferred_username
        (decStr "preferred_username") v).map fun s =>
      some { st with preferred_username := some s }
  else if base = "profile" then
    (putLoc "profile" tag st.profile v).map fun l =>
      some { st with profile := l }
  else if base = "picture" then
    (putLoc "picture" tag st.picture v).map fun l =>
      some { st with picture := l }
  else if base = "website" then
    (putLoc "website" tag st.website v).map fun l =>
      some { st with website := l }
  else if base = "email" then
    (putPlain "email" tag st.email (decStr "email") v).map fun s =>
      some { st with email := some s }
  else if base = "email_verified" then
    (putPlain "email_verified" tag st.email_verified
        (decBool "email_verified") v).map fun b =>
      some { st with email_verified := some b }
  else if base = "gender" then
    (putPlain "gender" tag st.gender
        (fun w => match c.dec w with
          | some g => .ok g
          | none => .error (.typeMismatch "gender")) v).map fun g =>
      some { st with gender := some g }
  else if base = "birthday" then
    (putPlain "birthday" tag st.birthday (decStr "birthday") v).map fun s =>
      some { st with birthday := some s }
  else if base = "zoneinfo" then
    (putPlain "zoneinfo" tag st.zoneinfo (decStr "zoneinfo") v).map fun s =>
      some { st with zoneinfo := some s }
  else if base = "locale" then
    (putPlain "locale" tag st.locale (decStr "locale") v).map fun s =>
      some { st with locale := some s }
  else if base = "phone_number" then
    (putPlain "phone_number" tag st.phone_number
        (decStr "phone_number") v).map fun s =>
      some { st with phone_number := some s }
  else if base = "phone_number_verified" then
    (putPlain "phone_number_verified" tag st.phone_number_verified
        (decBool "phone_number_verified") v).map fun b =>
      some { st with phone_number_verified := some b }
  else if base = "address" then
    (putPlain "address" tag st.address (decAddress "address") v).map fun a =>
      some { st with address := some a }
  else if base = "updated_at" then
    (putPlain "updated_at" tag st.updated_at
        (fun w => (decInt "updated_at" w).map seconds_to_utc) v).map fun t =>
      some { st with updated_at := some t }
  else .ok none

/-- Modelled from the spec: the single pass of the Claim Set Decoder over
the flat map.  Each key is split on the first delimiter, dispatched via
the field table; unknown keys are deferred (in order) to the extension
bucket, which is returned with the final state. -/
def decodeLoop (c : Codec GC) (st : DecState GC) (acc : FlatMap) :
    FlatMap → Except DecodeError (DecState GC × FlatMap)
  | [] => .ok (st, acc.reverse)
  | (k, v) :: rest =>
    let bt := split_language_tag_key k
    match applyKV c st bt.1 bt.2 v with
    | .error e => .error e
    | .ok none => decodeLoop c st ((k, v) :: acc) rest
    | .ok (some st2) => decodeLoop c st2 acc rest

/-- A localized field's slot assembles to `none` when no variant was
seen, `some` of the container otherwise. -/
def assembleLoc (l : LocalizedClaim String) : Option (LocalizedClaim String) :=
  if l.isEmpty then none else some l

/-- Modelled from the spec: assembly after the pass.  The subject is
required (`missingRequiredField` if never seen); every other slot may be
empty. -/
def finishDec (st : DecState GC) (rest : FlatMap) :
    Except DecodeError (StandardClaims GC × FlatMap) :=
  match st.sub with
  | none => .error (.missingRequiredField "sub")
  | some s =>
    .ok ({ sub := s
           name := assembleLoc st.name
           given_name := assembleLoc st.given_name
           family_name := assembleLoc st.family_name
           middle_name := assembleLoc st.middle_name
           nickname := assembleLoc st.nickname
           preferred_username := st.preferred_username
           profile := assembleLoc st.profile
           picture := assembleLoc st.picture
           website := assembleLoc st.website
           email := st.email
           email_verified := st.email_verified
           gender := st.gender
           birthday := st.birthday
           zoneinfo := st.zoneinfo
           locale := st.locale
           phone_number := st.phone_number
           phone_number_verified := st.phone_number_verified
           address := st.address
           updated_at := st.updated_at }, rest)

/-- Modelled from the spec: the Claim Set Decoder
(`Deserialize for StandardClaims`, `src/claims.rs` lines 144-189, whose
engine `deserialize_fields!` is outside the given sources).  Returns the
assembled entity together with the deferred extension bucket. -/
def decodeClaims (c : Codec GC) (m : FlatMap) :
    Except DecodeError (StandardClaims GC × FlatMap) :=
  match decodeLoop c {} [] m with
  | .error e => .error e
  | .ok (st, rest) => finishDec st rest

/-- The flat-map key of a localized variant: the base name alone for the
untagged default, `base#tag` otherwise. -/
def mkKey (base : String) : Option String → String
  | none => base
  | some t => base ++ "#" ++ t

/-- Encoder of one localized container: one pair per variant, in the
container's iteration (insertion) order. -/
def encLocPairs (base : String) (l : LocalizedClaim String) : FlatMap :=
  l.map fun p => (mkKey base p.1, Value.str p.2)

/-- Encoder of an optional localized field: an unset field emits
nothing. -/
def encLocOpt (base : String) : Option (LocalizedClaim String) → FlatMap
  | none => []
  | some l => encLocPairs base l

/-- Encoder of an optional plain field: present emits one pair, absent
emits nothing. -/
def optKV (base : String) (f : α → Value) : Option α → FlatMap
  | none => []
  | some x => [(base, f x)]

/-- Serialization of `AddressClaim` (`src/claims.rs` lines 29-43): each
`none` sub-field is skipped (`skip_serializing_if`), in declared order. -/
def encodeAddressKVs (a : AddressClaim) : List (String × Value) :=
  optKV "formatted" Value.str a.formatted ++
  optKV "street_address" Value.str a.street_address ++
  optKV "locality" Value.str a.locality ++
  optKV "region" Value.str a.region ++
  optKV "postal_code" Value.str a.postal_code ++
  optKV "country" Value.str a.country

/-- Modelled from the spec: the Claim Set Encoder
(`Serialize for StandardClaims`, `src/claims.rs` lines 196-224, whose
engine `serialize_fields!` is outside the given sources), in the field
table's declared order; the subject is always emitted first. -/
def encodeClaims (c : Codec GC) (x : StandardClaims GC) : FlatMap :=
  ("sub", Value.str x.sub) ::
  (encLocOpt "name" x.name ++
   (encLocOpt "given_name" x.given_name ++
    (encLocOpt "family_name" x.family_name ++
     (encLocOpt "middle_name" x.middle_name ++
      (encLocOpt "nickname" x.nickname ++
       (optKV "preferred_username" Value.str x.preferred_username ++
        (encLocOpt "profile" x.profile ++
         (encLocOpt "picture" x.picture ++
          (encLocOpt "website" x.website ++
           (optKV "email" Value.str x.email ++
            (optKV "email_verified" Value.bool x.email_verified ++
             (optKV "gender" c.enc x.gender ++
              (optKV "birthday" Value.str x.birthday ++
               (optKV "zoneinfo" Value.str x.zoneinfo ++
                (optKV "locale" Value.str x.locale ++
                 (optKV "phone_number" Value.str x.phone_number ++
                  (optKV "phone_number_verified" Value.bool
                      x.phone_number_verified ++
                   (optKV "address" (fun a => Value.obj (encodeAddressKVs a))
                       x.address ++
                    optKV "updated_at"
                      (fun t => Value.int (utc_to_seconds t))
                      x.updated_at))))))))))))))))))

/-! ### Properties of the key splitter -/

lemma splitFirstHash_of_not_mem (l : List Char) (h : '#' ∉ l) :
    splitFirstHash l = (l, none) := by
  induction l with
  | nil => rfl
  | cons c cs ih =>
    have hc : ¬ c = '#' := fun hc => h (hc ▸ List.mem_cons_self c cs)
    have hcs : '#' ∉ cs := fun hm => h (List.mem_cons_of_mem c hm)
    simp [splitFirstHash, hc, ih hcs]

lemma splitFirstHash_append (b t : List Char) (h : '#' ∉ b) :
    splitFirstHash (b ++ '#' :: t) = (b, some t) := by
  induction b with
  | nil => simp [splitFirstHash]
  | cons c cs ih =>
    have hc : ¬ c = '#' := fun hc => h (hc ▸ List.mem_cons_self c cs)
    have hcs : '#' ∉ cs := fun hm => h (List.mem_cons_of_mem c hm)
    simp [splitFirstHash, hc, ih hcs]

lemma data_append (s t : String) : (s ++ t).data = s.data ++ t.data := rfl

lemma split_key_no_hash (s : String) (h : '#' ∉ s.data) :
    split_language_tag_key s = (s, none) := by
  simp [split_language_tag_key, splitFirstHash_of_not_mem s.data h]

lemma split_key_hash (b t : String) (h : '#' ∉ b.data) :
    split_language_tag_key (b ++ "#" ++ t) = (b, some t) := by
  have hd : (b ++ "#" ++ t).data = b.data ++ '#' :: t.data := by
    simp [data_append]
  simp [split_language_tag_key, hd, splitFirstHash_append b.data t.data h]

/-! ### Stepping lemmas for the decode loop -/

lemma decodeLoop_cons_known (c : Codec GC) (st st2 : DecState GC)
    (acc rest : FlatMap) (k : String) (v : Value)
    (h : applyKV c st (split_language_tag_key k).1
        (split_language_tag_key k).2 v = .ok (some st2)) :
    decodeLoop c st acc ((k, v) :: rest) = decodeLoop c st2 acc rest := by
  simp [decodeLoop, h]

lemma mkKey_split (base : String) (tag : Option String)
    (h : '#' ∉ base.data) :
    split_language_tag_key (mkKey base tag) = (base, tag) := by
  cases tag with
  | none => exact split_key_no_hash base h
  | some t => exact split_key_hash base t h

lemma decode_seg_name (c : Codec GC) :
    ∀ (l : List (Option String × String)) (st : DecState GC)
      (acc rest : FlatMap),
      (st.name.map Prod.fst ++ l.map Prod.fst).Nodup →
      decodeLoop c st acc (encLocPairs "name" l ++ rest) =
        decodeLoop c { st with name := st.name ++ l } acc rest := by
  intro l
  induction l with
  | nil => intro st acc rest _; simp [encLocPairs]
  | cons p l ih =>
    intro st acc rest h
    obtain ⟨tag, v⟩ := p
    have htag : tag ∉ st.name.map Prod.fst := by
      intro hmem
      have hd := (List.nodup_append.mp h).2.2
      exact hd hmem (List.mem_cons_self _ _)
    have happly : applyKV c st "name" tag (Value.str v) =
        .ok (some { st with name := st.name ++ [(tag, v)] }) := by
      simp [applyKV, putLoc, decStr, LocalizedClaim.insertOpt, htag,
        Except.map]
    have hstep := decodeLoop_cons_known c st
      { st with name := st.name ++ [(tag, v)] } acc
      (encLocPairs "name" l ++ rest) (mkKey "name" tag) (Value.str v)
      (by rw [mkKey_split "name" tag (by decide)]; exact happly)
    have hnodup :
        ((st.name ++ [(tag, v)]).map Prod.fst ++ l.map Prod.fst).Nodup := by
      rw [List.map_append, List.append_assoc]
      simpa only [List.map_cons, List.map_nil, List.singleton_append]
        using h
    have hrec := ih { st with name := st.name ++ [(tag, v)] } acc rest hnodup
    calc decodeLoop c st acc (encLocPairs "name" ((tag, v) :: l) ++ rest)
        = decodeLoop c { st with name := st.name ++ [(tag, v)] } acc
            (encLocPairs "name" l ++ rest) := hstep
      _ = decodeLoop c { st with name := (st.name ++ [(tag, v)]) ++ l }
            acc rest := hrec
      _ = decodeLoop c { st with name := st.name ++ (tag, v) :: l }
            acc rest := by rw [List.append_assoc]; rfl

lemma decode_seg_given_name (c : Codec GC) :
    ∀ (l : List (Option String × String)) (st : DecState GC)
      (acc rest : FlatMap),
      (st.given_name.map Prod.fst ++ l.map Prod.fst).Nodup →
      decodeLoop c st acc (encLocPairs "given_name" l ++ rest) =
        decodeLoop c { st with given_name := st.given_name ++ l } acc rest := by
  intro l
  induction l with
  | nil => intro st acc rest _; simp [encLocPairs]
  | cons p l ih =>
    intro st acc rest h
    obtain ⟨tag, v⟩ := p
    have htag : tag ∉ st.given_name.map Prod.fst := by
      intro hmem
      have hd := (List.nodup_append.mp h).2.2
      exact hd hmem (List.mem_cons_self _ _)
    have happly : applyKV c st "given_name" tag (Value.str v) =
        .ok (some { st with given_name := st.given_name ++ [(tag, v)] }) := by
      simp [applyKV, putLoc, decStr, LocalizedClaim.insertOpt, htag,
        Except.map]
    have hstep := decodeLoop_cons_known c st
      { st with given_name := st.given_name ++ [(tag, v)] } acc
      (encLocPairs "given_name" l ++ rest) (mkKey "given_name" tag) (Value.str v)
      (by rw [mkKey_split "given_name" tag (by decide)]; exact happly)
    have hnodup :
        ((st.given_name ++ [(tag, v)]).map Prod.fst ++ l.map Prod.fst).Nodup := by
      rw [List.map_append, List.append_assoc]
      simpa only [List.map_cons, List.map_nil, List.singleton_append]
        using h
    have hrec := ih { st with given_name := st.given_name ++ [(tag, v)] } acc rest hnodup
    calc decodeLoop c st acc (encLocPairs "given_name" ((tag, v) :: l) ++ rest)
        = decodeLoop c { st with given_name := st.given_name ++ [(tag, v)] } acc
            (encLocPairs "given_name" l ++ rest) := hstep
      _ = decodeLoop c { st with given_name := (st.given_name ++ [(tag, v)]) ++ l }
            acc rest := hrec
      _ = decodeLoop c { st with given_name := st.given_name ++ (tag, v) :: l }
            acc rest := by rw [List.append_assoc]; rfl

lemma decode_seg_family_name (c : Codec GC) :
    ∀ (l : List (Option String × String)) (st : DecState GC)
      (acc rest : FlatMap),
      (st.family_name.map Prod.fst ++ l.map Prod.fst).Nodup →
      decodeLoop c st acc (encLocPairs "family_name" l ++ rest) =
        decodeLoop c { st with family_name := st.family_name ++ l } acc rest := by
  intro l
  induction l with
  | nil => intro st acc rest _; simp [encLocPairs]
  | cons p l ih =>
    intro st acc rest h
    obtain ⟨tag, v⟩ := p
    have htag : tag ∉ st.family_name.map Prod.fst := by
      intro hmem
      have hd := (List.nodup_append.mp h).2.2
      exact hd hmem (List.mem_cons_self _ _)
    have happly : applyKV c st "family_name" tag (Value.str v) =
        .ok (some { st with family_name := st.family_name ++ [(tag, v)] }) := by
      simp [applyKV, putLoc, decStr, LocalizedClaim.insertOpt, htag,
        Except.map]
    have hstep := decodeLoop_cons_known c st
      { st with family_name := st.family_name ++ [(tag, v)] } acc
      (encLocPairs "family_name" l ++ rest) (mkKey "family_name" tag) (Value.str v)
      (by rw [mkKey_split "family_name" tag (by decide)]; exact happly)
    have hnodup :
        ((st.family_name ++ [(tag, v)]).map Prod.fst ++ l.map Prod.fst).Nodup := by
      rw [List.map_append, List.append_assoc]
      simpa only [List.map_cons, List.map_nil, List.singleton_append]
        using h
    have hrec := ih { st with family_name := st.family_name ++ [(tag, v)] } acc rest hnodup
    calc decodeLoop c st acc (encLocPairs "family_name" ((tag, v) :: l) ++ rest)
        = decodeLoop c { st with family_name := st.family_name ++ [(tag, v)] } acc
            (encLocPairs "family_name" l ++ rest) := hstep
      _ = decodeLoop c { st with family_name := (st.family_name ++ [(tag, v)]) ++ l }
            acc rest := hrec
      _ = decodeLoop c { st with family_name := st.family_name ++ (tag, v) :: l }
            acc rest := by rw [List.append_assoc]; rfl

lemma decode_seg_middle_name (c : Codec GC) :
    ∀ (l : List (Option String × String)) (st : DecState GC)
      (acc rest : FlatMap),
      (st.middle_name.map Prod.fst ++ l.map Prod.fst).Nodup →
      decodeLoop c st acc (encLocPairs "middle_name" l ++ rest) =
        decodeLoop c { st with middle_name := st.middle_name ++ l } acc rest := by
  intro l
  induction l with
  | nil => intro st acc rest _; simp [encLocPairs]
  | cons p l ih =>
    intro st acc rest h
    obtain ⟨tag, v⟩ := p
    have htag : tag ∉ st.middle_name.map Prod.fst := by
      intro hmem
      have hd := (List.nodup_append.mp h).2.2
      exact hd hmem (List.mem_cons_self _ _)
    have happly : applyKV c st "middle_name" tag (Value.str v) =
        .ok (some { st with middle_name := st.middle_name ++ [(tag, v)] }) := by
      simp [applyKV, putLoc, decStr, LocalizedClaim.insertOpt, htag,
        Except.map]
    have hstep := decodeLoop_cons_known c st
      { st with middle_name := st.middle_name ++ [(tag, v)] } acc
      (encLocPairs "middle_name" l ++ rest) (mkKey "middle_name" tag) (Value.str v)
      (by rw [mkKey_split "middle_name" tag (by decide)]; exact happly)
    have hnodup :
        ((st.middle_name ++ [(tag, v)]).map Prod.fst ++ l.map Prod.fst).Nodup := by
      rw [List.map_append, List.append_assoc]
      simpa only [List.map_cons, List.map_nil, List.singleton_append]
        using h
    have hrec := ih { st with middle_name := st.middle_name ++ [(tag, v)] } acc rest hnodup
    calc decodeLoop c st acc (encLocPairs "middle_name" ((tag, v) :: l) ++ rest)
        = decodeLoop c { st with middle_name := st.middle_name ++ [(tag, v)] } acc
            (encLocPairs "middle_name" l ++ rest) := hstep
      _ = decodeLoop c { st with middle_name := (st.middle_name ++ [(tag, v)]) ++ l }
            acc rest := hrec
      _ = decodeLoop c { st with middle_name := st.middle_name ++ (tag, v) :: l }
            acc rest := by rw [List.append_assoc]; rfl

lemma decode_seg_nickname (c : Codec GC) :
    ∀ (l : List (Option String × String)) (st : DecState GC)
      (acc rest : FlatMap),
      (st.nickname.map Prod.fst ++ l.map Prod.fst).Nodup →
      decodeLoop c st acc (encLocPairs "nickname" l ++ rest) =
        decodeLoop c { st with nickname := st.nickname ++ l } acc rest := by
  intro l
  induction l with
  | nil => intro st acc rest _; simp [encLocPairs]
  | cons p l ih =>
    intro st acc rest h
    obtain ⟨tag, v⟩ := p
    have htag : tag ∉ st.nickname.map Prod.fst := by
      intro hmem
      have hd := (List.nodup_append.mp h).2.2
      exact hd hmem (List.mem_cons_self _ _)
    have happly : applyKV c st "nickname" tag (Value.str v) =
        .ok (some { st with nickname := st.nickname ++ [(tag, v)] }) := by
      simp [applyKV, putLoc, decStr, LocalizedClaim.insertOpt, htag,
        Except.map]
    have hstep := decodeLoop_cons_known c st
      { st with nickname := st.nickname ++ [(tag, v)] } acc
      (encLocPairs "nickname" l ++ rest) (mkKey "nickname" tag) (Value.str v)
      (by rw [mkKey_split "nickname" tag (by decide)]; exact happly)
    have hnodup :
        ((st.nickname ++ [(tag, v)]).map Prod.fst ++ l.map Prod.fst).Nodup := by
      rw [List.map_append, List.append_assoc]
      simpa only [List.map_cons, List.map_nil, List.singleton_append]
        using h
    have hrec := ih { st with nickname := st.nickname ++ [(tag, v)] } acc rest hnodup
    calc decodeLoop c st acc (encLocPairs "nickname" ((tag, v) :: l) ++ rest)
        = decodeLoop c { st with nickname := st.nickname ++ [(tag, v)] } acc
            (encLocPairs "nickname" l ++ rest) := hstep
      _ = decodeLoop c { st with nickname := (st.nickname ++ [(tag, v)]) ++ l }
            acc rest := hrec
      _ = decodeLoop c { st with nickname := st.nickname ++ (tag, v) :: l }
            acc rest := by rw [List.append_assoc]; rfl

lemma decode_seg_profile (c : Codec GC) :
    ∀ (l : List (Option String × String)) (st : DecState GC)
      (acc rest : FlatMap),
      (st.profile.map Prod.fst ++ l.map Prod.fst).Nodup →
      decodeLoop c st acc (encLocPairs "profile" l ++ rest) =
        decodeLoop c { st with profile := st.profile ++ l } acc rest := by
  intro l
  induction l with
  | nil => intro st acc rest _; simp [encLocPairs]
  | cons p l ih =>
    intro st acc rest h
    obtain ⟨tag, v⟩ := p
    have htag : tag ∉ st.profile.map Prod.fst := by
      intro hmem
      have hd := (List.nodup_append.mp h).2.2
      exact hd hmem (List.mem_cons_self _ _)
    have happly : applyKV c st "profile" tag (Value.str v) =
        .ok (some { st with profile := st.profile ++ [(tag, v)] }) := by
      simp [applyKV, putLoc, decStr, LocalizedClaim.insertOpt, htag,
        Except.map]
    have hstep := decodeLoop_cons_known c st
      { st with profile := st.profile ++ [(tag, v)] } acc
      (encLocPairs "profile" l ++ rest) (mkKey "profile" tag) (Value.str v)
      (by rw [mkKey_split "profile" tag (by decide)]; exact happly)
    have hnodup :
        ((st.profile ++ [(tag, v)]).map Prod.fst ++ l.map Prod.fst).Nodup := by
      rw [List.map_append, List.append_assoc]
      simpa only [List.map_cons, List.map_nil, List.singleton_append]
        using h
    have hrec := ih { st with profile := st.profile ++ [(tag, v)] } acc rest hnodup
    calc decodeLoop c st acc (encLocPairs "profile" ((tag, v) :: l) ++ rest)
        = decodeLoop c { st with profile := st.profile ++ [(tag, v)] } acc
            (encLocPairs "profile" l ++ rest) := hstep
      _ = decodeLoop c { st with profile := (st.profile ++ [(tag, v)]) ++ l }
            acc rest := hrec
      _ = decodeLoop c { st with profile := st.profile ++ (tag, v) :: l }
            acc rest := by rw [List.append_assoc]; rfl

lemma decode_seg_picture (c : Codec GC) :
    ∀ (l : List (Option String × String)) (st : DecState GC)
      (acc rest : FlatMap),
      (st.picture.map Prod.fst ++ l.map Prod.fst).Nodup →
      decodeLoop c st acc (encLocPairs "picture" l ++ rest) =
        decodeLoop c { st with picture := st.picture ++ l } acc rest := by
  intro l
  induction l with
  | nil => intro st acc rest _; simp [encLocPairs]
  | cons p l ih =>
    intro st acc rest h
    obtain ⟨tag, v⟩ := p
    have htag : tag ∉ st.picture.map Prod.fst := by
      intro hmem
      have hd := (List.nodup_append.mp h).2.2
      exact hd hmem (List.mem_cons_self _ _)
    have happly : applyKV c st "picture" tag (Value.str v) =
        .ok (some { st with picture := st.picture ++ [(tag, v)] }) := by
      simp [applyKV, putLoc, decStr, LocalizedClaim.insertOpt, htag,
        Except.map]
    have hstep := decodeLoop_cons_known c st
      { st with picture := st.picture ++ [(tag, v)] } acc
      (encLocPairs "picture" l ++ rest) (mkKey "picture" tag) (Value.str v)
      (by rw [mkKey_split "picture" tag (by decide)]; exact happly)
    have hnodup :
        ((st.picture ++ [(tag, v)]).map Prod.fst ++ l.map Prod.fst).Nodup := by
      rw [List.map_append, List.append_assoc]
      simpa only [List.map_cons, List.map_nil, List.singleton_append]
        using h
    have hrec := ih { st with picture := st.picture ++ [(tag, v)] } acc rest hnodup
    calc decodeLoop c st acc (encLocPairs "picture" ((tag, v) :: l) ++ rest)
        = decodeLoop c { st with picture := st.picture ++ [(tag, v)] } acc
            (encLocPairs "picture" l ++ rest) := hstep
      _ = decodeLoop c { st with picture := (st.picture ++ [(tag, v)]) ++ l }
            acc rest := hrec
      _ = decodeLoop c { st with picture := st.picture ++ (tag, v) :: l }
            acc rest := by rw [List.append_assoc]; rfl

lemma decode_seg_website (c : Codec GC) :
    ∀ (l : List (Option String × String)) (st : DecState GC)
      (acc rest : FlatMap),
      (st.website.map Prod.fst ++ l.map Prod.fst).Nodup →
      decodeLoop c st acc (encLocPairs "website" l ++ rest) =
        decodeLoop c { st with website := st.website ++ l } acc rest := by
  intro l
  induction l with
  | nil => intro st acc rest _; simp [encLocPairs]
  | cons p l ih =>
    intro st acc rest h
    obtain ⟨tag, v⟩ := p
    have htag : tag ∉ st.website.map Prod.fst := by
      intro hmem
      have hd := (List.nodup_append.mp h).2.2
      exact hd hmem (List.mem_cons_self _ _)
    have happly : applyKV c st "website" tag (Value.str v) =
        .ok (some { st with website := st.website ++ [(tag, v)] }) := by
      simp [applyKV, putLoc, decStr, LocalizedClaim.insertOpt, htag,
        Except.map]
    have hstep := decodeLoop_cons_known c st
      { st with website := st.website ++ [(tag, v)] } acc
      (encLocPairs "website" l ++ rest) (mkKey "website" tag) (Value.str v)
      (by rw [mkKey_split "website" tag (by decide)]; exact happly)
    have hnodup :
        ((st.website ++ [(tag, v)]).map Prod.fst ++ l.map Prod.fst).Nodup := by
      rw [List.map_append, List.append_assoc]
      simpa only [List.map_cons, List.map_nil, List.singleton_append]
        using h
    have hrec := ih { st with website := st.website ++ [(tag, v)] } acc rest hnodup
    calc decodeLoop c st acc (encLocPairs "website" ((tag, v) :: l) ++ rest)
        = decodeLoop c { st with website := st.website ++ [(tag, v)] } acc
            (encLocPairs "website" l ++ rest) := hstep
      _ = decodeLoop c { st with website := (st.website ++ [(tag, v)]) ++ l }
            acc rest := hrec
      _ = decodeLoop c { st with website := st.website ++ (tag, v) :: l }
            acc rest := by rw [List.append_assoc]; rfl

lemma decode_seg_preferred_username (c : Codec GC) (ov : Option String)
    (st : DecState GC) (acc rest : FlatMap) (h : st.preferred_username = none) :
    decodeLoop c st acc (optKV "preferred_username" Value.str ov ++ rest) =
      decodeLoop c { st with preferred_username := ov } acc rest := by
  cases ov with
  | none =>
    have hst : ({ st with preferred_username := none } : DecState GC) = st := by
      cases st; simp_all
    simp [optKV, hst]
  | some s =>
    have happly : applyKV c st "preferred_username" none (Value.str s) =
        .ok (some { st with preferred_username := some s }) := by
      simp [applyKV, putPlain, decStr, h, Except.map]
    have hstep := decodeLoop_cons_known c st { st with preferred_username := some s } acc
      rest "preferred_username" (Value.str s)
      (by rw [split_key_no_hash "preferred_username" (by decide)]; exact happly)
    simpa [optKV] using hstep

lemma decode_seg_email (c : Codec GC) (ov : Option String)
    (st : DecState GC) (acc rest : FlatMap) (h : st.email = none) :
    decodeLoop c st acc (optKV "email" Value.str ov ++ rest) =
      decodeLoop c { st with email := ov } acc rest := by
  cases ov with
  | none =>
    have hst : ({ st with email := none } : DecState GC) = st := by
      cases st; simp_all
    simp [optKV, hst]
  | some s =>
    have happly : applyKV c st "email" none (Value.str s) =
        .ok (some { st with email := some s }) := by
      simp [applyKV, putPlain, decStr, h, Except.map]
    have hstep := decodeLoop_cons_known c st { st with email := some s } acc
      rest "email" (Value.str s)
      (by rw [split_key_no_hash "email" (by decide)]; exact happly)
    simpa [optKV] using hstep

lemma decode_seg_birthday (c : Codec GC) (ov : Option String)
    (st : DecState GC) (acc rest : FlatMap) (h : st.birthday = none) :
    decodeLoop c st acc (optKV "birthday" Value.str ov ++ rest) =
      decodeLoop c { st with birthday := ov } acc rest := by
  cases ov with
  | none =>
    have hst : ({ st with birthday := none } : DecState GC) = st := by
      cases st; simp_all
    simp [optKV, hst]
  | some s =>
    have happly : applyKV c st "birthday" none (Value.str s) =
        .ok (some { st with birthday := some s }) := by
      simp [applyKV, putPlain, decStr, h, Except.map]
    have hstep := decodeLoop_cons_known c st { st with birthday := some s } acc
      rest "birthday" (Value.str s)
      (by rw [split_key_no_hash "birthday" (by decide)]; exact happly)
    simpa [optKV] using hstep

lemma decode_seg_zoneinfo (c : Codec GC) (ov : Option String)
    (st : DecState GC) (acc rest : FlatMap) (h : st.zoneinfo = none) :
    decodeLoop c st acc (optKV "zoneinfo" Value.str ov ++ rest) =
      decodeLoop c { st with zoneinfo := ov } acc rest := by
  cases ov with
  | none =>
    have hst : ({ st with zoneinfo := none } : DecState GC) = st := by
      cases st; simp_all
    simp [optKV, hst]
  | some s =>
    have happly : applyKV c st "zoneinfo" none (Value.str s) =
        .ok (some { st with zoneinfo := some s }) := by
      simp [applyKV, putPlain, decStr, h, Except.map]
    have hstep := decodeLoop_cons_known c st { st with zoneinfo := some s } acc
      rest "zoneinfo" (Value.str s)
      (by rw [split_key_no_hash "zoneinfo" (by decide)]; exact happly)
    simpa [optKV] using hstep

lemma decode_seg_locale (c : Codec GC) (ov : Option String)
    (st : DecState GC) (acc rest : FlatMap) (h : st.locale = none) :
    decodeLoop c st acc (optKV "locale" Value.str ov ++ rest) =
      decodeLoop c { st with locale := ov } acc rest := by
  cases ov with
  | none =>
    have hst : ({ st with locale := none } : DecState GC) = st := by
      cases st; simp_all
    simp [optKV, hst]
  | some s =>
    have happly : applyKV c st "locale" none (Value.str s) =
        .ok (some { st with locale := some s }) := by
      simp [applyKV, putPlain, decStr, h, Except.map]
    have hstep := decodeLoop_cons_known c st { st with locale := some s } acc
      rest "locale" (Value.str s)
      (by rw [split_key_no_hash "locale" (by decide)]; exact happly)
    simpa [optKV] using hstep

lemma decode_seg_phone_number (c : Codec GC) (ov : Option String)
    (st : DecState GC) (acc rest : FlatMap) (h : st.phone_number = none) :
    decodeLoop c st acc (optKV "phone_number" Value.str ov ++ rest) =
      decodeLoop c { st with phone_number := ov } acc rest := by
  cases ov with
  | none =>
    have hst : ({ st with phone_number := none } : DecState GC) = st := by
      cases st; simp_all
    simp [optKV, hst]
  | some s =>
    have happly : applyKV c st "phone_number" none (Value.str s) =
        .ok (some { st with phone_number := some s }) := by
      simp [applyKV, putPlain, decStr, h, Except.map]
    have hstep := decodeLoop_cons_known c st { st with phone_number := some s } acc
      rest "phone_number" (Value.str s)
      (by rw [split_key_no_hash "phone_number" (by decide)]; exact happly)
    simpa [optKV] using hstep

lemma decode_seg_email_verified (c : Codec GC) (ov : Option Bool)
    (st : DecState GC) (acc rest : FlatMap) (h : st.email_verified = none) :
    decodeLoop c st acc (optKV "email_verified" Value.bool ov ++ rest) =
      decodeLoop c { st with email_verified := ov } acc rest := by
  cases ov with
  | none =>
    have hst : ({ st with email_verified := none } : DecState GC) = st := by
      cases st; simp_all
    simp [optKV, hst]
  | some s =>
    have happly : applyKV c st "email_verified" none (Value.bool s) =
        .ok (some { st with email_verified := some s }) := by
      simp [applyKV, putPlain, decBool, h, Except.map]
    have hstep := decodeLoop_cons_known c st { st with email_verified := some s } acc
      rest "email_verified" (Value.bool s)
      (by rw [split_key_no_hash "email_verified" (by decide)]; exact happly)
    simpa [optKV] using hstep

lemma decode_seg_phone_number_verified (c : Codec GC) (ov : Option Bool)
    (st : DecState GC) (acc rest : FlatMap) (h : st.phone_number_verified = none) :
    decodeLoop c st acc (optKV "phone_number_verified" Value.bool ov ++ rest) =
      decodeLoop c { st with phone_number_verified := ov } acc rest := by
  cases ov with
  | none =>
    have hst : ({ st with phone_number_verified := none } : DecState GC) = st := by
      cases st; simp_all
    simp [optKV, hst]
  | some s =>
    have happly : applyKV c st "phone_number_verified" none (Value.bool s) =
        .ok (some { st with phone_number_verified := some s }) := by
      simp [applyKV, putPlain, decBool, h, Except.map]
    have hstep := decodeLoop_cons_known c st { st with phone_number_verified := some s } acc
      rest "phone_number_verified" (Value.bool s)
      (by rw [split_key_no_hash "phone_number_verified" (by decide)]; exact happly)
    simpa [optKV] using hstep

lemma decode_seg_sub (c : Codec GC) (s : String) (st : DecState GC)
    (acc rest : FlatMap) (h : st.sub = none) :
    decodeLoop c st acc (("sub", Value.str s) :: rest) =
      decodeLoop c { st with sub := some s } acc rest := by
  have happly : applyKV c st "sub" none (Value.str s) =
      .ok (some { st with sub := some s }) := by
    simp [applyKV, putPlain, decStr, h, Except.map]
  exact decodeLoop_cons_known c st { st with sub := some s } acc rest
    "sub" (Value.str s)
    (by rw [split_key_no_hash "sub" (by decide)]; exact happly)

lemma decode_seg_gender (c : Codec GC)
    (hg : ∀ g, c.dec (c.enc g) = some g) (og : Option GC)
    (st : DecState GC) (acc rest : FlatMap) (h : st.gender = none) :
    decodeLoop c st acc (optKV "gender" c.enc og ++ rest) =
      decodeLoop c { st with gender := og } acc rest := by
  cases og with
  | none =>
    have hst : ({ st with gender := none } : DecState GC) = st := by
      cases st; simp_all
    simp [optKV, hst]
  | some g =>
    have happly : applyKV c st "gender" none (c.enc g) =
        .ok (some { st with gender := some g }) := by
      simp [applyKV, putPlain, h, hg g, Except.map]
    have hstep := decodeLoop_cons_known c st { st with gender := some g } acc
      rest "gender" (c.enc g)
      (by rw [split_key_no_hash "gender" (by decide)]; exact happly)
    simpa [optKV] using hstep

lemma decodeAddressLoop_encode (a : AddressClaim) :
    decodeAddressLoop {} (encodeAddressKVs a) = .ok a := by
  obtain ⟨f, s, l, r, p, c⟩ := a
  cases f <;> cases s <;> cases l <;> cases r <;> cases p <;> cases c <;> rfl

lemma decode_seg_address (c : Codec GC) (oa : Option AddressClaim)
    (st : DecState GC) (acc rest : FlatMap) (h : st.address = none) :
    decodeLoop c st acc
        (optKV "address" (fun a => Value.obj (encodeAddressKVs a)) oa ++
          rest) =
      decodeLoop c { st with address := oa } acc rest := by
  cases oa with
  | none =>
    have hst : ({ st with address := none } : DecState GC) = st := by
      cases st; simp_all
    simp [optKV, hst]
  | some a =>
    have happly : applyKV c st "address" none
        (Value.obj (encodeAddressKVs a)) =
        .ok (some { st with address := some a }) := by
      simp [applyKV, putPlain, decAddress, h, decodeAddressLoop_encode a,
        Except.map]
    have hstep := decodeLoop_cons_known c st { st with address := some a }
      acc rest "address" (Value.obj (encodeAddressKVs a))
      (by rw [split_key_no_hash "address" (by decide)]; exact happly)
    simpa [optKV] using hstep

lemma decode_seg_updated_at (c : Codec GC) (ot : Option Int)
    (st : DecState GC) (acc rest : FlatMap) (h : st.updated_at = none) :
    decodeLoop c st acc
        (optKV "updated_at" (fun t => Value.int (utc_to_seconds t)) ot ++
          rest) =
      decodeLoop c
        { st with
            updated_at := ot.map fun t => seconds_to_utc (utc_to_seconds t) }
        acc rest := by
  cases ot with
  | none =>
    have hst : ({ st with updated_at := none } : DecState GC) = st := by
      cases st; simp_all
    simp [optKV, hst]
  | some t =>
    have happly : applyKV c st "updated_at" none
        (Value.int (utc_to_seconds t)) =
        .ok (some { st with
          updated_at := some (seconds_to_utc (utc_to_seconds t)) }) := by
      simp [applyKV, putPlain, decInt, h, Except.map]
    have hstep := decodeLoop_cons_known c st
      { st with updated_at := some (seconds_to_utc (utc_to_seconds t)) }
      acc rest "updated_at" (Value.int (utc_to_seconds t))
      (by rw [split_key_no_hash "updated_at" (by decide)]; exact happly)
    simpa [optKV] using hstep

/-- A localized field value reachable by the container's own
constructors and survivable by a round trip: either unset, or a nonempty
container with pairwise-distinct tags (the container invariant). -/
def locOk : Option (LocalizedClaim String) → Prop
  | none => True
  | some l => l ≠ [] ∧ (l.map Prod.fst).Nodup

instance (o : Option (LocalizedClaim String)) : Decidable (locOk o) := by
  cases o with
  | none => exact isTrue trivial
  | some l => exact inferInstanceAs (Decidable (_ ∧ _))

lemma decode_segOpt_name (c : Codec GC)
    (o : Option (LocalizedClaim String)) (st : DecState GC)
    (acc rest : FlatMap) (hst : st.name = []) (ho : locOk o) :
    decodeLoop c st acc (encLocOpt "name" o ++ rest) =
      decodeLoop c { st with name := o.getD [] } acc rest := by
  cases o with
  | none =>
    have hid : ({ st with name := ([] : LocalizedClaim String) } :
        DecState GC) = st := by
      cases st; simp_all
    simpa [encLocOpt, Option.getD] using hid ▸ rfl
  | some l =>
    have hnd : (st.name.map Prod.fst ++ l.map Prod.fst).Nodup := by
      rw [hst]; simpa using ho.2
    have h := decode_seg_name c l st acc rest hnd
    have h2 : st.name ++ l = l := by rw [hst]; simp
    rw [encLocOpt, h, h2]
    rfl

lemma decode_segOpt_given_name (c : Codec GC)
    (o : Option (LocalizedClaim String)) (st : DecState GC)
    (acc rest : FlatMap) (hst : st.given_name = []) (ho : locOk o) :
    decodeLoop c st acc (encLocOpt "given_name" o ++ rest) =
      decodeLoop c { st with given_name := o.getD [] } acc rest := by
  cases o with
  | none =>
    have hid : ({ st with given_name := ([] : LocalizedClaim String) } :
        DecState GC) = st := by
      cases st; simp_all
    simpa [encLocOpt, Option.getD] using hid ▸ rfl
  | some l =>
    have hnd : (st.given_name.map Prod.fst ++ l.map Prod.fst).Nodup := by
      rw [hst]; simpa using ho.2
    have h := decode_seg_given_name c l st acc rest hnd
    have h2 : st.given_name ++ l = l := by rw [hst]; simp
    rw [encLocOpt, h, h2]
    rfl

lemma decode_segOpt_family_name (c : Codec GC)
    (o : Option (LocalizedClaim String)) (st : DecState GC)
    (acc rest : FlatMap) (hst : st.family_name = []) (ho : locOk o) :
    decodeLoop c st acc (encLocOpt "family_name" o ++ rest) =
      decodeLoop c { st with family_name := o.getD [] } acc rest := by
  cases o with
  | none =>
    have hid : ({ st with family_name := ([] : LocalizedClaim String) } :
        DecState GC) = st := by
      cases st; simp_all
    simpa [encLocOpt, Option.getD] using hid ▸ rfl
  | some l =>
    have hnd : (st.family_name.map Prod.fst ++ l.map Prod.fst).Nodup := by
      rw [hst]; simpa using ho.2
    have h := decode_seg_family_name c l st acc rest hnd
    have h2 : st.family_name ++ l = l := by rw [hst]; simp
    rw [encLocOpt, h, h2]
    rfl

lemma decode_segOpt_middle_name (c : Codec GC)
    (o : Option (LocalizedClaim String)) (st : DecState GC)
    (acc rest : FlatMap) (hst : st.middle_name = []) (ho : locOk o) :
    decodeLoop c st acc (encLocOpt "middle_name" o ++ rest) =
      decodeLoop c { st with middle_name := o.getD [] } acc rest := by
  cases o with
  | none =>
    have hid : ({ st with middle_name := ([] : LocalizedClaim String) } :
        DecState GC) = st := by
      cases st; simp_all
    simpa [encLocOpt, Option.getD] using hid ▸ rfl
  | some l =>
    have hnd : (st.middle_name.map Prod.fst ++ l.map Prod.fst).Nodup := by
      rw [hst]; simpa using ho.2
    have h := decode_seg_middle_name c l st acc rest hnd
    have h2 : st.middle_name ++ l = l := by rw [hst]; simp
    rw [encLocOpt, h, h2]
    rfl

lemma decode_segOpt_nickname (c : Codec GC)
    (o : Option (LocalizedClaim String)) (st : DecState GC)
    (acc rest : FlatMap) (hst : st.nickname = []) (ho : locOk o) :
    decodeLoop c st acc (encLocOpt "nickname" o ++ rest) =
      decodeLoop c { st with nickname := o.getD [] } acc rest := by
  cases o with
  | none =>
    have hid : ({ st with nickname := ([] : LocalizedClaim String) } :
        DecState GC) = st := by
      cases st; simp_all
    simpa [encLocOpt, Option.getD] using hid ▸ rfl
  | some l =>
    have hnd : (st.nickname.map Prod.fst ++ l.map Prod.fst).Nodup := by
      rw [hst]; simpa using ho.2
    have h := decode_seg_nickname c l st acc rest hnd
    have h2 : st.nickname ++ l = l := by rw [hst]; simp
    rw [encLocOpt, h, h2]
    rfl

lemma decode_segOpt_profile (c : Codec GC)
    (o : Option (LocalizedClaim String)) (st : DecState GC)
    (acc rest : FlatMap) (hst : st.profile = []) (ho : locOk o) :
    decodeLoop c st acc (encLocOpt "profile" o ++ rest) =
      decodeLoop c { st with profile := o.getD [] } acc rest := by
  cases o with
  | none =>
    have hid : ({ st with profile := ([] : LocalizedClaim String) } :
        DecState GC) = st := by
      cases st; simp_all
    simpa [encLocOpt, Option.getD] using hid ▸ rfl
  | some l =>
    have hnd : (st.profile.map Prod.fst ++ l.map Prod.fst).Nodup := by
      rw [hst]; simpa using ho.2
    have h := decode_seg_profile c l st acc rest hnd
    have h2 : st.profile ++ l = l := by rw [hst]; simp
    rw [encLocOpt, h, h2]
    rfl

lemma decode_segOpt_picture (c : Codec GC)
    (o : Option (LocalizedClaim String)) (st : DecState GC)
    (acc rest : FlatMap) (hst : st.picture = []) (ho : locOk o) :
    decodeLoop c st acc (encLocOpt "picture" o ++ rest) =
      decodeLoop c { st with picture := o.getD [] } acc rest := by
  cases o with
  | none =>
    have hid : ({ st with picture := ([] : LocalizedClaim String) } :
        DecState GC) = st := by
      cases st; simp_all
    simpa [encLocOpt, Option.getD] using hid ▸ rfl
  | some l =>
    have hnd : (st.picture.map Prod.fst ++ l.map Prod.fst).Nodup := by
      rw [hst]; simpa using ho.2
    have h := decode_seg_picture c l st acc rest hnd
    have h2 : st.picture ++ l = l := by rw [hst]; simp
    rw [encLocOpt, h, h2]
    rfl

lemma decode_segOpt_website (c : Codec GC)
    (o : Option (LocalizedClaim String)) (st : DecState GC)
    (acc rest : FlatMap) (hst : st.website = []) (ho : locOk o) :
    decodeLoop c st acc (encLocOpt "website" o ++ rest) =
      decodeLoop c { st with website := o.getD [] } acc rest := by
  cases o with
  | none =>
    have hid : ({ st with website := ([] : LocalizedClaim String) } :
        DecState GC) = st := by
      cases st; simp_all
    simpa [encLocOpt, Option.getD] using hid ▸ rfl
  | some l =>
    have hnd : (st.website.map Prod.fst ++ l.map Prod.fst).Nodup := by
      rw [hst]; simpa using ho.2
    have h := decode_seg_website c l st acc rest hnd
    have h2 : st.website ++ l = l := by rw [hst]; simp
    rw [encLocOpt, h, h2]
    rfl

/-- The entity after the codec's single lossy step: the update timestamp
truncated to whole seconds (toward zero); every other field untouched. -/
def truncUpdated (x : StandardClaims GC) : StandardClaims GC :=
  { x with
      updated_at := x.updated_at.map fun t => seconds_to_utc (utc_to_seconds t) }

lemma assembleLoc_getD (o : Option (LocalizedClaim String)) (ho : locOk o) :
    assembleLoc (o.getD []) = o := by
  cases o with
  | none => rfl
  | some l =>
    cases l with
    | nil => exact absurd rfl ho.1
    | cons p l => rfl

lemma decode_seg_updated_at_nil (c : Codec GC) (ot : Option Int)
    (st : DecState GC) (acc : FlatMap) (h : st.updated_at = none) :
    decodeLoop c st acc
        (optKV "updated_at" (fun t => Value.int (utc_to_seconds t)) ot) =
      decodeLoop c
        { st with
            updated_at := ot.map fun t => seconds_to_utc (utc_to_seconds t) }
        acc [] := by
  have hx := decode_seg_updated_at c ot st acc [] h
  simpa using hx

/-- C1 (amended): for every Claim Set Entity whose gender codec is
round-trip-safe and whose localized fields are each either unset or a
nonempty container with pairwise-distinct tags, decoding the flat map
produced by encoding yields exactly the entity back (with an empty
extension bucket), except that the update timestamp is truncated to whole
seconds toward zero. -/
theorem c1_round_trip (c : Codec GC) (x : StandardClaims GC)
    (hg : ∀ g, c.dec (c.enc g) = some g)
    (h1 : locOk x.name) (h2 : locOk x.given_name)
    (h3 : locOk x.family_name) (h4 : locOk x.middle_name)
    (h5 : locOk x.nickname) (h6 : locOk x.profile)
    (h7 : locOk x.picture) (h8 : locOk x.website) :
    decodeClaims c (encodeClaims c x) = .ok (truncUpdated x, []) := by
  rw [decodeClaims, encodeClaims]
  rw [decode_seg_sub c x.sub {} [] _ rfl]
  rw [decode_segOpt_name c x.name _ [] _ rfl h1]
  rw [decode_segOpt_given_name c x.given_name _ [] _ rfl h2]
  rw [decode_segOpt_family_name c x.family_name _ [] _ rfl h3]
  rw [decode_segOpt_middle_name c x.middle_name _ [] _ rfl h4]
  rw [decode_segOpt_nickname c x.nickname _ [] _ rfl h5]
  rw [decode_seg_preferred_username c x.preferred_username _ [] _ rfl]
  rw [decode_segOpt_profile c x.profile _ [] _ rfl h6]
  rw [decode_segOpt_picture c x.picture _ [] _ rfl h7]
  rw [decode_segOpt_website c x.website _ [] _ rfl h8]
  rw [decode_seg_email c x.email _ [] _ rfl]
  rw [decode_seg_email_verified c x.email_verified _ [] _ rfl]
  rw [decode_seg_gender c hg x.gender _ [] _ rfl]
  rw [decode_seg_birthday c x.birthday _ [] _ rfl]
  rw [decode_seg_zoneinfo c x.zoneinfo _ [] _ rfl]
  rw [decode_seg_locale c x.locale _ [] _ rfl]
  rw [decode_seg_phone_number c x.phone_number _ [] _ rfl]
  rw [decode_seg_phone_number_verified c x.phone_number_verified _ [] _ rfl]
  rw [decode_seg_address c x.address _ [] _ rfl]
  rw [decode_seg_updated_at_nil c x.updated_at _ [] rfl]
  simp only [decodeLoop, List.reverse_nil, finishDec]
  rw [assembleLoc_getD x.name h1, assembleLoc_getD x.given_name h2,
    assembleLoc_getD x.family_name h3, assembleLoc_getD x.middle_name h4,
    assembleLoc_getD x.nickname h5, assembleLoc_getD x.profile h6,
    assembleLoc_getD x.picture h7, assembleLoc_getD x.website h8]
  rfl

/-- A concrete entity exercising localized, scalar, boolean, gender,
nested-address and time-valued fields (with sub-second precision). -/
def exampleEntity : StandardClaims String :=
  { sub := "alice"
    name := some [(none, "Alice"), (some "fr", "Alice fr")]
    email := some "alice@example.com"
    email_verified := some true
    gender := some "f"
    address := some { locality := some "Paris" }
    updated_at := some 1234567890123456789 }

/-- Witness for C1 (amended): the hypotheses hold and the round trip
computes at a concrete entity. -/
theorem c1_round_trip_witness :
    (∀ g, strCodec.dec (strCodec.enc g) = some g) ∧
    locOk exampleEntity.name ∧
    decodeClaims strCodec (encodeClaims strCodec exampleEntity) =
      .ok (truncUpdated exampleEntity, []) :=
  ⟨fun _ => rfl, by decide,
    c1_round_trip strCodec exampleEntity (fun _ => rfl) (by decide)
      (by decide) (by decide) (by decide) (by decide) (by decide)
      (by decide) (by decide)⟩

/-- C1 as frozen is false: the entity built from subject `"s"` by
`set_name (some [])` (an empty localized container, constructible through
the setters) encodes to a map with no `name` key, which decodes back with
`name = none`, not `some []`; so the decoded entity differs from the
original even though `updated_at` is unset. -/
theorem c1_counterexample :
    decodeClaims strCodec (encodeClaims strCodec
        ((StandardClaims.new "s").set_name (some []))) =
      .ok ((StandardClaims.new "s" : StandardClaims String), []) ∧
    decodeClaims strCodec (encodeClaims strCodec
        ((StandardClaims.new "s").set_name (some []))) ≠
      .ok ((StandardClaims.new "s").set_name (some []), []) := by
  refine ⟨rfl, fun h => ?_⟩
  have h0 : decodeClaims strCodec (encodeClaims strCodec
      ((StandardClaims.new "s").set_name (some []))) =
      .ok ((StandardClaims.new "s" : StandardClaims String), []) := rfl
  rw [h0] at h
  simp [StandardClaims.new, StandardClaims.set_name, Except.ok.injEq,
    Prod.mk.injEq, StandardClaims.mk.injEq] at h

/-- C2: the key splitter splits on the first occurrence of the delimiter:
for a base with no delimiter, `base ++ "#" ++ tag` splits into the base
and the (possibly empty, possibly delimiter-containing) tag, a key with
no delimiter yields tag `none`, and a key ending in the delimiter yields
the distinct valid tag `some ""`, never `none`. -/
theorem c2_split_language_tag_key (base tag : String)
    (h : '#' ∉ base.data) :
    split_language_tag_key (base ++ "#" ++ tag) = (base, some tag) ∧
    split_language_tag_key base = (base, none) ∧
    split_language_tag_key (base ++ "#") = (base, some "") ∧
    (split_language_tag_key (base ++ "#")).2 ≠ none := by
  have hd : (base ++ "#").data = base.data ++ '#' :: [] := by
    simp [data_append]
  have h3 : split_language_tag_key (base ++ "#") = (base, some "") := by
    simp [split_language_tag_key, hd, splitFirstHash_append base.data [] h]
  exact ⟨split_key_hash base tag h, split_key_no_hash base h, h3,
    by rw [h3]; simp⟩

/-- Witness for C2 at the concrete key pieces `"name"` and `"fr"`. -/
theorem c2_split_language_tag_key_witness :
    ('#' ∉ "name".data) ∧
    split_language_tag_key ("name" ++ "#" ++ "fr") = ("name", some "fr") ∧
    split_language_tag_key "name" = ("name", none) ∧
    split_language_tag_key ("name" ++ "#") = ("name", some "") :=
  ⟨by decide, (c2_split_language_tag_key "name" "fr" (by decide)).1,
    (c2_split_language_tag_key "name" "fr" (by decide)).2.1,
    (c2_split_language_tag_key "name" "fr" (by decide)).2.2.1⟩

/-- C3: providing the same plain key twice (`name` or `email`), or the
same localized variant twice (`name#fr`), fails with `duplicateField`
naming that field and tag, whatever the two values were. -/
theorem c3_duplicate_field (s v1 v2 : String) :
    decodeClaims strCodec
        [("sub", Value.str s), ("name", Value.str v1),
         ("name", Value.str v2)] =
      .error (.duplicateField "name" none) ∧
    decodeClaims strCodec
        [("sub", Value.str s), ("name#fr", Value.str v1),
         ("name#fr", Value.str v2)] =
      .error (.duplicateField "name" (some "fr")) ∧
    decodeClaims strCodec
        [("sub", Value.str s), ("email", Value.str v1),
         ("email", Value.str v2)] =
      .error (.duplicateField "email" none) :=
  ⟨rfl, rfl, rfl⟩

/-- The plain (non-localizable) field names of the field table. -/
def plainFieldNames : List String :=
  ["sub", "preferred_username", "email", "email_verified", "gender",
   "birthday", "zoneinfo", "locale", "phone_number",
   "phone_number_verified", "address", "updated_at"]

/-- The localized field names of the field table. -/
def localizedFieldNames : List String :=
  ["name", "given_name", "family_name", "middle_name", "nickname",
   "profile", "picture", "website"]

/-- C4: a language-tag suffix on any non-localizable field fails with
`unexpectedLocalizedVariant` for that field, whatever the value; every
field declared localized does accept a tag suffix, and in particular
`name#fr` decodes into the name container under tag `fr`. -/
theorem c4_unexpected_localized_variant (base : String)
    (hb : base ∈ plainFieldNames) :
    (∀ (s : String) (v : Value),
      decodeClaims strCodec [("sub", Value.str s), (base ++ "#fr", v)] =
        .error (.unexpectedLocalizedVariant base)) ∧
    (∀ b2 ∈ localizedFieldNames, ∀ (s w : String), ∃ x,
      decodeClaims strCodec
          [("sub", Value.str s), (b2 ++ "#fr", Value.str w)] =
        .ok (x, [])) ∧
    (∀ s w : String,
      decodeClaims strCodec [("sub", Value.str s), ("name#fr", Value.str w)] =
        .ok ((StandardClaims.new s).set_name (some [(some "fr", w)]), [])) := by
  refine ⟨?_, ?_, fun s w => rfl⟩
  · fin_cases hb <;> exact fun s v => rfl
  · intro b2 hb2
    fin_cases hb2 <;> exact fun s w => ⟨_, rfl⟩

/-- Witness for C4 at `base = "email"`: `email#fr` is rejected. -/
theorem c4_unexpected_localized_variant_witness :
    ("email" ∈ plainFieldNames) ∧
    decodeClaims strCodec
        [("sub", Value.str "alice"), ("email" ++ "#fr", Value.str "x")] =
      .error (.unexpectedLocalizedVariant "email") :=
  ⟨by decide,
    (c4_unexpected_localized_variant "email" (by decide)).1 "alice"
      (Value.str "x")⟩

lemma except_map_ok {α β : Type} {f : α → β} {e : Except DecodeError α}
    {b : β} (h : e.map f = .ok b) : ∃ a, e = .ok a ∧ b = f a := by
  cases e with
  | error ex => simp [Except.map] at h
  | ok a => exact ⟨a, rfl, by simpa [Except.map] using h.symm⟩

lemma applyKV_sub_preserved (c : Codec GC) (st : DecState GC)
    (base : String) (tag : Option String) (v : Value)
    (hb : base ≠ "sub") (stx : DecState GC)
    (h : applyKV c st base tag v = .ok (some stx)) : stx.sub = st.sub := by
  rw [applyKV, if_neg hb] at h
  by_cases hc0 : base = "name"
  · rw [if_pos hc0] at h
    obtain ⟨y, -, hb2⟩ := except_map_ok h
    rw [Option.some.inj hb2]
  rw [if_neg hc0] at h
  by_cases hc1 : base = "given_name"
  · rw [if_pos hc1] at h
    obtain ⟨y, -, hb2⟩ := except_map_ok h
    rw [Option.some.inj hb2]
  rw [if_neg hc1] at h
  by_cases hc2 : base = "family_name"
  · rw [if_pos hc2] at h
    obtain ⟨y, -, hb2⟩ := except_map_ok h
    rw [Option.some.inj hb2]
  rw [if_neg hc2] at h
  by_cases hc3 : base = "middle_name"
  · rw [if_pos hc3] at h
    obtain ⟨y, -, hb2⟩ := except_map_ok h
    rw [Option.some.inj hb2]
  rw [if_neg hc3] at h
  by_cases hc4 : base = "nickname"
  · rw [if_pos hc4] at h
    obtain ⟨y, -, hb2⟩ := except_map_ok h
    rw [Option.some.inj hb2]
  rw [if_neg hc4] at h
  by_cases hc5 : base = "preferred_username"
  · rw [if_pos hc5] at h
    obtain ⟨y, -, hb2⟩ := except_map_ok h
    rw [Option.some.inj hb2]
  rw [if_neg hc5] at h
  by_cases hc6 : base = "profile"
  · rw [if_pos hc6] at h
    obtain ⟨y, -, hb2⟩ := except_map_ok h
    rw [Option.some.inj hb2]
  rw [if_neg hc6] at h
  by_cases hc7 : base = "picture"
  · rw [if_pos hc7] at h
    obtain ⟨y, -, hb2⟩ := except_map_ok h
    rw [Option.some.inj hb2]
  rw [if_neg hc7] at h
  by_cases hc8 : base = "website"
  · rw [if_pos hc8] at h
    obtain ⟨y, -, hb2⟩ := except_map_ok h
    rw [Option.some.inj hb2]
  rw [if_neg hc8] at h
  by_cases hc9 : base = "email"
  · rw [if_pos hc9] at h
    obtain ⟨y, -, hb2⟩ := except_map_ok h
    rw [Option.some.inj hb2]
  rw [if_neg hc9] at h
  by_cases hc10 : base = "email_verified"
  · rw [if_pos hc10] at h
    obtain ⟨y, -, hb2⟩ := except_map_ok h
    rw [Option.some.inj hb2]
  rw [if_neg hc10] at h
  by_cases hc11 : base = "gender"
  · rw [if_pos hc11] at h
    obtain ⟨y, -, hb2⟩ := except_map_ok h
    rw [Option.some.inj hb2]
  rw [if_neg hc11] at h
  by_cases hc12 : base = "birthday"
  · rw [if_pos hc12] at h
    obtain ⟨y, -, hb2⟩ := except_map_ok h
    rw [Option.some.inj hb2]
  rw [if_neg hc12] at h
  by_cases hc13 : base = "zoneinfo"
  · rw [if_pos hc13] at h
    obtain ⟨y, -, hb2⟩ := except_map_ok h
    rw [Option.some.inj hb2]
  rw [if_neg hc13] at h
  by_cases hc14 : base = "locale"
  · rw [if_pos hc14] at h
    obtain ⟨y, -, hb2⟩ := except_map_ok h
    rw [Option.some.inj hb2]
  rw [if_neg hc14] at h
  by_cases hc15 : base = "phone_number"
  · rw [if_pos hc15] at h
    obtain ⟨y, -, hb2⟩ := except_map_ok h
    rw [Option.some.inj hb2]
  rw [if_neg hc15] at h
  by_cases hc16 : base = "phone_number_verified"
  · rw [if_pos hc16] at h
    obtain ⟨y, -, hb2⟩ := except_map_ok h
    rw [Option.some.inj hb2]
  rw [if_neg hc16] at h
  by_cases hc17 : base = "address"
  · rw [if_pos hc17] at h
    obtain ⟨y, -, hb2⟩ := except_map_ok h
    rw [Option.some.inj hb2]
  rw [if_neg hc17] at h
  by_cases hc18 : base = "updated_at"
  · rw [if_pos hc18] at h
    obtain ⟨y, -, hb2⟩ := except_map_ok h
    rw [Option.some.inj hb2]
  rw [if_neg hc18] at h
  simp at h

lemma finishDec_none (st : DecState GC) (rest : FlatMap)
    (h : st.sub = none) :
    finishDec st rest = .error (.missingRequiredField "sub") := by
  unfold finishDec
  rw [h]

lemma decodeClaims_ok_loop (c : Codec GC) (m : FlatMap)
    (st : DecState GC) (rest : FlatMap)
    (hloop : decodeLoop c {} [] m = .ok (st, rest)) :
    decodeClaims c m = finishDec st rest := by
  unfold decodeClaims
  rw [hloop]

lemma decodeClaims_error_loop (c : Codec GC) (m : FlatMap)
    (e : DecodeError) (hloop : decodeLoop c {} [] m = .error e) :
    decodeClaims c m = .error e := by
  unfold decodeClaims
  rw [hloop]

lemma decodeLoop_sub_preserved (c : Codec GC) :
    ∀ (m : FlatMap) (st : DecState GC) (acc : FlatMap),
      (∀ p ∈ m, (split_language_tag_key p.1).1 ≠ "sub") →
      ∀ st2 rest, decodeLoop c st acc m = .ok (st2, rest) →
      st2.sub = st.sub := by
  intro m
  induction m with
  | nil =>
    intro st acc _ st2 rest hok
    simp only [decodeLoop, Except.ok.injEq, Prod.mk.injEq] at hok
    rw [← hok.1]
  | cons p m ih =>
    intro st acc h st2 rest hok
    obtain ⟨k, v⟩ := p
    have hk : (split_language_tag_key k).1 ≠ "sub" :=
      h (k, v) (List.mem_cons_self _ _)
    have hm : ∀ q ∈ m, (split_language_tag_key q.1).1 ≠ "sub" :=
      fun q hq => h q (List.mem_cons_of_mem _ hq)
    rw [decodeLoop] at hok
    rcases happ : applyKV c st (split_language_tag_key k).1
        (split_language_tag_key k).2 v with e | o
    · rw [happ] at hok; cases hok
    · rw [happ] at hok
      cases o with
      | none => exact ih st ((k, v) :: acc) hm st2 rest hok
      | some stx =>
        have h1 := ih stx acc hm st2 rest hok
        have h2 := applyKV_sub_preserved c st _ _ v hk stx happ
        rw [h1, h2]

/-- C5: a flat map containing no key whose base name is `sub` never
decodes successfully; when the single pass itself raises no error, the
failure is precisely `missingRequiredField "sub"`.  Conversely a map
holding only `sub` decodes, with every other field left unset. -/
theorem c5_missing_sub (m : FlatMap)
    (h : ∀ p ∈ m, (split_language_tag_key p.1).1 ≠ "sub") :
    (∀ r, decodeClaims strCodec m ≠ .ok r) ∧
    (∀ st rest, decodeLoop strCodec {} [] m = .ok (st, rest) →
      decodeClaims strCodec m = .error (.missingRequiredField "sub")) ∧
    (∀ s, decodeClaims strCodec [("sub", Value.str s)] =
      .ok (StandardClaims.new s, [])) := by
  have hsub : ∀ st rest, decodeLoop strCodec {} [] m = .ok (st, rest) →
      st.sub = none := fun st rest hok =>
    decodeLoop_sub_preserved strCodec m {} [] h st rest hok
  refine ⟨?_, ?_, fun s => rfl⟩
  · intro r hok
    rcases hloop : decodeLoop strCodec {} [] m with e | ⟨st, rest⟩
    · rw [decodeClaims_error_loop strCodec m e hloop] at hok
      cases hok
    · rw [decodeClaims_ok_loop strCodec m st rest hloop,
        finishDec_none st rest (hsub st rest hloop)] at hok
      cases hok
  · intro st rest hok
    rw [decodeClaims_ok_loop strCodec m st rest hok,
      finishDec_none st rest (hsub st rest hok)]

/-- Witness for C5: the sub-free map `{"email":"e"}` does not decode to
any entity, and the map `{"sub":"bob"}` decodes with all other fields
unset. -/
theorem c5_missing_sub_witness :
    (∀ p ∈ [(("email" : String), Value.str "e")],
      (split_language_tag_key p.1).1 ≠ "sub") ∧
    decodeClaims strCodec [("email", Value.str "e")] ≠
      .ok (StandardClaims.new "e", []) ∧
    decodeClaims strCodec [("sub", Value.str "bob")] =
      .ok (StandardClaims.new "bob", []) :=
  ⟨by decide,
    (c5_missing_sub [("email", Value.str "e")] (by decide)).1 _,
    (c5_missing_sub [("email", Value.str "e")] (by decide)).2.2 "bob"⟩

lemma utc_to_seconds_spec (t : Int) :
    (utc_to_seconds t * 1000000000).natAbs ≤ t.natAbs ∧
    (t - utc_to_seconds t * 1000000000).natAbs < 1000000000 ∧
    (0 ≤ t → 0 ≤ utc_to_seconds t) ∧ (t ≤ 0 → utc_to_seconds t ≤ 0) := by
  cases t with
  | ofNat n =>
    cases n with
    | zero => simp [utc_to_seconds]
    | succ m =>
      have hq := Nat.div_add_mod (m + 1) 1000000000
      have hr : (m + 1) % 1000000000 < 1000000000 :=
        Nat.mod_lt _ (by norm_num)
      simp only [utc_to_seconds, Int.sign, Int.natAbs_ofNat,
        Nat.succ_eq_add_one, Int.ofNat_eq_coe]
      omega
  | negSucc n =>
    have hq := Nat.div_add_mod (n + 1) 1000000000
    have hr : (n + 1) % 1000000000 < 1000000000 :=
      Nat.mod_lt _ (by norm_num)
    simp only [utc_to_seconds, Int.sign, Int.natAbs_negSucc,
      Nat.succ_eq_add_one, Int.ofNat_eq_coe, Int.negSucc_eq]
    omega

lemma utc_to_seconds_toward_zero (t : Int) : 0 ≤ t * utc_to_seconds t := by
  rcases le_total 0 t with h | h
  · exact mul_nonneg h ((utc_to_seconds_spec t).2.2.1 h)
  · have h2 := (utc_to_seconds_spec t).2.2.2 h
    have := mul_nonneg (neg_nonneg.mpr h) (neg_nonneg.mpr h2)
    simpa [neg_mul_neg] using this

/-- C6: a present update timestamp is emitted as an integer count of
whole seconds since the epoch: the emitted count times one second differs
from the instant by less than a second, never exceeds it in magnitude,
and never flips its sign (truncation toward zero); the decoder maps an
integer count of seconds back to the corresponding instant. -/
theorem c6_updated_at_seconds (t n : Int) (s : String) :
    encodeClaims strCodec
        ((StandardClaims.new s).set_updated_at (some t)) =
      [("sub", Value.str s),
       ("updated_at", Value.int (utc_to_seconds t))] ∧
    (utc_to_seconds t * 1000000000).natAbs ≤ t.natAbs ∧
    (t - utc_to_seconds t * 1000000000).natAbs < 1000000000 ∧
    0 ≤ t * utc_to_seconds t ∧
    decodeClaims strCodec
        [("sub", Value.str s), ("updated_at", Value.int n)] =
      .ok ((StandardClaims.new s).set_updated_at
            (some (seconds_to_utc n)), []) :=
  ⟨rfl, (utc_to_seconds_spec t).1, (utc_to_seconds_spec t).2.1,
    utc_to_seconds_toward_zero t, rfl⟩

/-- C7: the encoder emits in the declared field-table order with `sub`
always first; a fully populated entity encodes to the full key list in
that order, and absent fields emit nothing, so an entity holding only a
subject encodes to exactly the one-entry map. -/
theorem c7_encode_order :
    (∀ s, encodeClaims strCodec (StandardClaims.new s) =
      [("sub", Value.str s)]) ∧
    (∀ x : StandardClaims String, ∃ rest,
      encodeClaims strCodec x = ("sub", Value.str x.sub) :: rest) ∧
    (∀ (s vn vg vf vm vk pu vp vc vw em : String) (ev : Bool)
        (gd bd zi lc pn : String) (pv : Bool) (t : Int),
      encodeClaims strCodec
        { sub := s, name := some [(none, vn)],
          given_name := some [(none, vg)],
          family_name := some [(none, vf)],
          middle_name := some [(none, vm)],
          nickname := some [(none, vk)], preferred_username := some pu,
          profile := some [(none, vp)], picture := some [(none, vc)],
          website := some [(none, vw)], email := some em,
          email_verified := some ev, gender := some gd,
          birthday := some bd, zoneinfo := some zi, locale := some lc,
          phone_number := some pn, phone_number_verified := some pv,
          address := some {}, updated_at := some t } =
        [("sub", Value.str s), ("name", Value.str vn),
         ("given_name", Value.str vg), ("family_name", Value.str vf),
         ("middle_name", Value.str vm), ("nickname", Value.str vk),
         ("preferred_username", Value.str pu), ("profile", Value.str vp),
         ("picture", Value.str vc), ("website", Value.str vw),
         ("email", Value.str em), ("email_verified", Value.bool ev),
         ("gender", Value.str gd), ("birthday", Value.str bd),
         ("zoneinfo", Value.str zi), ("locale", Value.str lc),
         ("phone_number", Value.str pn),
         ("phone_number_verified", Value.bool pv),
         ("address", Value.obj []),
         ("updated_at", Value.int (utc_to_seconds t))]) :=
  ⟨fun _ => rfl, fun _ => ⟨_, rfl⟩,
    fun _ _ _ _ _ _ _ _ _ _ _ _ _ _ _ _ _ _ _ => rfl⟩


/-- Modelled from the spec: container equality disregards order — two
containers holding the same set of (tag, value) pairs are considered
equal (the real container is backed by a hash map). -/
def LocalizedClaim.equivSet (a b : LocalizedClaim String) : Prop :=
  ∀ p, p ∈ a ↔ p ∈ b

/-- Set-based equality lifted to an optional localized field. -/
def optLocEquiv :
    Option (LocalizedClaim String) → Option (LocalizedClaim String) → Prop
  | none, none => True
  | some a, some b => LocalizedClaim.equivSet a b
  | _, _ => False

lemma optLocEquiv_refl (o : Option (LocalizedClaim String)) :
    optLocEquiv o o := by
  cases o with
  | none => trivial
  | some l => exact fun p => Iff.rfl

/-- Modelled from the spec: equality of Claim Set Entities — every
scalar field compared structurally, every localized field compared as a
set of (tag, value) pairs. -/
def StandardClaims.equiv (x y : StandardClaims GC) : Prop :=
  x.sub = y.sub ∧ optLocEquiv x.name y.name ∧
  optLocEquiv x.given_name y.given_name ∧
  optLocEquiv x.family_name y.family_name ∧
  optLocEquiv x.middle_name y.middle_name ∧
  optLocEquiv x.nickname y.nickname ∧
  x.preferred_username = y.preferred_username ∧
  optLocEquiv x.profile y.profile ∧
  optLocEquiv x.picture y.picture ∧
  optLocEquiv x.website y.website ∧
  x.email = y.email ∧ x.email_verified = y.email_verified ∧
  x.gender = y.gender ∧ x.birthday = y.birthday ∧
  x.zoneinfo = y.zoneinfo ∧ x.locale = y.locale ∧
  x.phone_number = y.phone_number ∧
  x.phone_number_verified = y.phone_number_verified ∧
  x.address = y.address ∧ x.updated_at = y.updated_at

/-- Building a container by repeated `insert` of a list of (tag, value)
pairs, starting from empty; fails on any duplicate tag. -/
def insertAll (l : List (Option String × String)) :
    Option (LocalizedClaim String) :=
  l.foldlM (fun a p => a.insertOpt p.1 p.2) []

lemma insertAll_go :
    ∀ (l : List (Option String × String)) (a c : LocalizedClaim String),
      List.foldlM (fun a p => LocalizedClaim.insertOpt a p.1 p.2) a l =
        some c → c = a ++ l := by
  intro l
  induction l with
  | nil =>
    intro a c h
    simp only [List.foldlM] at h
    simp [Option.some.inj h]
  | cons p l ih =>
    intro a c h
    simp only [List.foldlM_cons] at h
    rcases hins : LocalizedClaim.insertOpt a p.1 p.2 with _ | a2
    · rw [hins] at h; cases h
    · rw [hins] at h
      have ha2 : a2 = a ++ [p] := by
        rw [LocalizedClaim.insertOpt] at hins
        split at hins
        · cases hins
        · exact (Option.some.inj hins).symm
      have := ih a2 c h
      rw [this, ha2, List.append_assoc]
      rfl

lemma insertAll_eq (l : List (Option String × String))
    (c : LocalizedClaim String) (h : insertAll l = some c) : c = l := by
  have := insertAll_go l [] c h
  simpa using this

/-- C8: two entities whose localized containers were built by inserting
the same set of (tag, value) pairs in different orders compare equal
under the entity equality. -/
theorem c8_order_independence (xbase : StandardClaims String)
    (l1 l2 : List (Option String × String)) (hperm : l1.Perm l2)
    (c1 c2 : LocalizedClaim String)
    (h1 : insertAll l1 = some c1) (h2 : insertAll l2 = some c2) :
    StandardClaims.equiv (xbase.set_name (some c1))
      (xbase.set_name (some c2)) := by
  rw [insertAll_eq l1 c1 h1, insertAll_eq l2 c2 h2]
  refine ⟨rfl, fun p => hperm.mem_iff, optLocEquiv_refl _, optLocEquiv_refl _,
    optLocEquiv_refl _, optLocEquiv_refl _, rfl, optLocEquiv_refl _,
    optLocEquiv_refl _, optLocEquiv_refl _, rfl, rfl, rfl, rfl, rfl, rfl,
    rfl, rfl, rfl, rfl⟩

/-- Witness for C8: the two-entry name container inserted in both orders
yields equal entities. -/
theorem c8_order_independence_witness :
    ([((none : Option String), "Alice"), (some "fr", "Alyce")].Perm
        [(some "fr", "Alyce"), (none, "Alice")]) ∧
    insertAll [(none, "Alice"), (some "fr", "Alyce")] =
      some [(none, "Alice"), (some "fr", "Alyce")] ∧
    StandardClaims.equiv
      ((StandardClaims.new "s" : StandardClaims String).set_name
        (some [(none, "Alice"), (some "fr", "Alyce")]))
      ((StandardClaims.new "s" : StandardClaims String).set_name
        (some [(some "fr", "Alyce"), (none, "Alice")])) :=
  ⟨by decide, by decide,
    c8_order_independence (StandardClaims.new "s" : StandardClaims String)
      [(none, "Alice"), (some "fr", "Alyce")]
      [(some "fr", "Alyce"), (none, "Alice")] (by decide) _ _
      (by decide) (by decide)⟩


/-- C9: `new` constructs an entity whose subject is the given identifier
and every other field unset; each field-level setter replaces exactly its
own field with the given value and leaves every other field unchanged. -/
theorem c9_new_and_setters :
    (∀ s : String,
      (StandardClaims.new s : StandardClaims String).sub = s ∧
      (StandardClaims.new s : StandardClaims String).name = none ∧
      (StandardClaims.new s : StandardClaims String).given_name = none ∧
      (StandardClaims.new s : StandardClaims String).family_name = none ∧
      (StandardClaims.new s : StandardClaims String).middle_name = none ∧
      (StandardClaims.new s : StandardClaims String).nickname = none ∧
      (StandardClaims.new s : StandardClaims String).preferred_username = none ∧
      (StandardClaims.new s : StandardClaims String).profile = none ∧
      (StandardClaims.new s : StandardClaims String).picture = none ∧
      (StandardClaims.new s : StandardClaims String).website = none ∧
      (StandardClaims.new s : StandardClaims String).email = none ∧
      (StandardClaims.new s : StandardClaims String).email_verified = none ∧
      (StandardClaims.new s : StandardClaims String).gender = none ∧
      (StandardClaims.new s : StandardClaims String).birthday = none ∧
      (StandardClaims.new s : StandardClaims String).zoneinfo = none ∧
      (StandardClaims.new s : StandardClaims String).locale = none ∧
      (StandardClaims.new s : StandardClaims String).phone_number = none ∧
      (StandardClaims.new s : StandardClaims String).phone_number_verified = none ∧
      (StandardClaims.new s : StandardClaims String).address = none ∧
      (StandardClaims.new s : StandardClaims String).updated_at = none) ∧
    (∀ (x : StandardClaims String) (v : String),
      (x.set_subject v).sub = v ∧
      (x.set_subject v).name = x.name ∧
      (x.set_subject v).given_name = x.given_name ∧
      (x.set_subject v).family_name = x.family_name ∧
      (x.set_subject v).middle_name = x.middle_name ∧
      (x.set_subject v).nickname = x.nickname ∧
      (x.set_subject v).preferred_username = x.preferred_username ∧
      (x.set_subject v).profile = x.profile ∧
      (x.set_subject v).picture = x.picture ∧
      (x.set_subject v).website = x.website ∧
      (x.set_subject v).email = x.email ∧
      (x.set_subject v).email_verified = x.email_verified ∧
      (x.set_subject v).gender = x.gender ∧
      (x.set_subject v).birthday = x.birthday ∧
      (x.set_subject v).zoneinfo = x.zoneinfo ∧
      (x.set_subject v).locale = x.locale ∧
      (x.set_subject v).phone_number = x.phone_number ∧
      (x.set_subject v).phone_number_verified = x.phone_number_verified ∧
      (x.set_subject v).address = x.address ∧
      (x.set_subject v).updated_at = x.updated_at) ∧
    (∀ (x : StandardClaims String) (v : Option (LocalizedClaim String)),
      (x.set_name v).sub = x.sub ∧
      (x.set_name v).name = v ∧
      (x.set_name v).given_name = x.given_name ∧
      (x.set_name v).family_name = x.family_name ∧
      (x.set_name v).middle_name = x.middle_name ∧
      (x.set_name v).nickname = x.nickname ∧
      (x.set_name v).preferred_username = x.preferred_username ∧
      (x.set_name v).profile = x.profile ∧
      (x.set_name v).picture = x.picture ∧
      (x.set_name v).website = x.website ∧
      (x.set_name v).email = x.email ∧
      (x.set_name v).email_verified = x.email_verified ∧
      (x.set_name v).gender = x.gender ∧
      (x.set_name v).birthday = x.birthday ∧
      (x.set_name v).zoneinfo = x.zoneinfo ∧
      (x.set_name v).locale = x.locale ∧
      (x.set_name v).phone_number = x.phone_number ∧
      (x.set_name v).phone_number_verified = x.phone_number_verified ∧
      (x.set_name v).address = x.address ∧
      (x.set_name v).updated_at = x.updated_at) ∧
    (∀ (x : StandardClaims String) (v : Option (LocalizedClaim String)),
      (x.set_given_name v).sub = x.sub ∧
      (x.set_given_name v).name = x.name ∧
      (x.set_given_name v).given_name = v ∧
      (x.set_given_name v).family_name = x.family_name ∧
      (x.set_given_name v).middle_name = x.middle_name ∧
      (x.set_given_name v).nickname = x.nickname ∧
      (x.set_given_name v).preferred_username = x.preferred_username ∧
      (x.set_given_name v).profile = x.profile ∧
      (x.set_given_name v).picture = x.picture ∧
      (x.set_given_name v).website = x.website ∧
      (x.set_given_name v).email = x.email ∧
      (x.set_given_name v).email_verified = x.email_verified ∧
      (x.set_given_name v).gender = x.gender ∧
      (x.set_given_name v).birthday = x.birthday ∧
      (x.set_given_name v).zoneinfo = x.zoneinfo ∧
      (x.set_given_name v).locale = x.locale ∧
      (x.set_given_name v).phone_number = x.phone_number ∧
      (x.set_given_name v).phone_number_verified = x.phone_number_verified ∧
      (x.set_given_name v).address = x.address ∧
      (x.set_given_name v).updated_at = x.updated_at) ∧
    (∀ (x : StandardClaims String) (v : Option (LocalizedClaim String)),
      (x.set_family_name v).sub = x.sub ∧
      (x.set_family_name v).name = x.name ∧
      (x.set_family_name v).given_name = x.given_name ∧
      (x.set_family_name v).family_name = v ∧
      (x.set_family_name v).middle_name = x.middle_name ∧
      (x.set_family_name v).nickname = x.nickname ∧
      (x.set_family_name v).preferred_username = x.preferred_username ∧
      (x.set_family_name v).profile = x.profile ∧
      (x.set_family_name v).picture = x.picture ∧
      (x.set_family_name v).website = x.website ∧
      (x.set_family_name v).email = x.email ∧
      (x.set_family_name v).email_verified = x.email_verified ∧
      (x.set_family_name v).gender = x.gender ∧
      (x.set_family_name v).birthday = x.birthday ∧
      (x.set_family_name v).zoneinfo = x.zoneinfo ∧
      (x.set_family_name v).locale = x.locale ∧
      (x.set_family_name v).phone_number = x.phone_number ∧
      (x.set_family_name v).phone_number_verified = x.phone_number_verified ∧
      (x.set_family_name v).address = x.address ∧
      (x.set_family_name v).updated_at = x.updated_at) ∧
    (∀ (x : StandardClaims String) (v : Option (LocalizedClaim String)),
      (x.set_middle_name v).sub = x.sub ∧
      (x.set_middle_name v).name = x.name ∧
      (x.set_middle_name v).given_name = x.given_name ∧
      (x.set_middle_name v).family_name = x.family_name ∧
      (x.set_middle_name v).middle_name = v ∧
      (x.set_middle_name v).nickname = x.nickname ∧
      (x.set_middle_name v).preferred_username = x.preferred_username ∧
      (x.set_middle_name v).profile = x.profile ∧
      (x.set_middle_name v).picture = x.picture ∧
      (x.set_middle_name v).website = x.website ∧
      (x.set_middle_name v).email = x.email ∧
      (x.set_middle_name v).email_verified = x.email_verified ∧
      (x.set_middle_name v).gender = x.gender ∧
      (x.set_middle_name v).birthday = x.birthday ∧
      (x.set_middle_name v).zoneinfo = x.zoneinfo ∧
      (x.set_middle_name v).locale = x.locale ∧
      (x.set_middle_name v).phone_number = x.phone_number ∧
      (x.set_middle_name v).phone_number_verified = x.phone_number_verified ∧
      (x.set_middle_name v).address = x.address ∧
      (x.set_middle_name v).updated_at = x.updated_at) ∧
    (∀ (x : StandardClaims String) (v : Option (LocalizedClaim String)),
      (x.set_nickname v).sub = x.sub ∧
      (x.set_nickname v).name = x.name ∧
      (x.set_nickname v).given_name = x.given_name ∧
      (x.set_nickname v).family_name = x.family_name ∧
      (x.set_nickname v).middle_name = x.middle_name ∧
      (x.set_nickname v).nickname = v ∧
      (x.set_nickname v).preferred_username = x.preferred_username ∧
      (x.set_nickname v).profile = x.profile ∧
      (x.set_nickname v).picture = x.picture ∧
      (x.set_nickname v).website = x.website ∧
      (x.set_nickname v).email = x.email ∧
      (x.set_nickname v).email_verified = x.email_verified ∧
      (x.set_nickname v).gender = x.gender ∧
      (x.set_nickname v).birthday = x.birthday ∧
      (x.set_nickname v).zoneinfo = x.zoneinfo ∧
      (x.set_nickname v).locale = x.locale ∧
      (x.set_nickname v).phone_number = x.phone_number ∧
      (x.set_nickname v).phone_number_verified = x.phone_number_verified ∧
      (x.set_nickname v).address = x.address ∧
      (x.set_nickname v).updated_at = x.updated_at) ∧
    (∀ (x : StandardClaims String) (v : Option String),
      (x.set_preferred_username v).sub = x.sub ∧
      (x.set_preferred_username v).name = x.name ∧
      (x.set_preferred_username v).given_name = x.given_name ∧
      (x.set_preferred_username v).family_name = x.family_name ∧
      (x.set_preferred_username v).middle_name = x.middle_name ∧
      (x.set_preferred_username v).nickname = x.nickname ∧
      (x.set_preferred_username v).preferred_username = v ∧
      (x.set_preferred_username v).profile = x.profile ∧
      (x.set_preferred_username v).picture = x.picture ∧
      (x.set_preferred_username v).website = x.website ∧
      (x.set_preferred_username v).email = x.email ∧
      (x.set_preferred_username v).email_verified = x.email_verified ∧
      (x.set_preferred_username v).gender = x.gender ∧
      (x.set_preferred_username v).birthday = x.birthday ∧
      (x.set_preferred_username v).zoneinfo = x.zoneinfo ∧
      (x.set_preferred_username v).locale = x.locale ∧
      (x.set_preferred_username v).phone_number = x.phone_number ∧
      (x.set_preferred_username v).phone_number_verified = x.phone_number_verified ∧
      (x.set_preferred_username v).address = x.address ∧
      (x.set_preferred_username v).updated_at = x.updated_at) ∧
    (∀ (x : StandardClaims String) (v : Option (LocalizedClaim String)),
      (x.set_profile v).sub = x.sub ∧
      (x.set_profile v).name = x.name ∧
      (x.set_profile v).given_name = x.given_name ∧
      (x.set_profile v).family_name = x.family_name ∧
      (x.set_profile v).middle_name = x.middle_name ∧
      (x.set_profile v).nickname = x.nickname ∧
      (x.set_profile v).preferred_username = x.preferred_username ∧
      (x.set_profile v).profile = v ∧
      (x.set_profile v).picture = x.picture ∧
      (x.set_profile v).website = x.website ∧
      (x.set_profile v).email = x.email ∧
      (x.set_profile v).email_verified = x.email_verified ∧
      (x.set_profile v).gender = x.gender ∧
      (x.set_profile v).birthday = x.birthday ∧
      (x.set_profile v).zoneinfo = x.zoneinfo ∧
      (x.set_profile v).locale = x.locale ∧
      (x.set_profile v).phone_number = x.phone_number ∧
      (x.set_profile v).phone_number_verified = x.phone_number_verified ∧
      (x.set_profile v).address = x.address ∧
      (x.set_profile v).updated_at = x.updated_at) ∧
    (∀ (x : StandardClaims String) (v : Option (LocalizedClaim String)),
      (x.set_picture v).sub = x.sub ∧
      (x.set_picture v).name = x.name ∧
      (x.set_picture v).given_name = x.given_name ∧
      (x.set_picture v).family_name = x.family_name ∧
      (x.set_picture v).middle_name = x.middle_name ∧
      (x.set_picture v).nickname = x.nickname ∧
      (x.set_picture v).preferred_username = x.preferred_username ∧
      (x.set_picture v).profile = x.profile ∧
      (x.set_picture v).picture = v ∧
      (x.set_picture v).website = x.website ∧
      (x.set_picture v).email = x.email ∧
      (x.set_picture v).email_verified = x.email_verified ∧
      (x.set_picture v).gender = x.gender ∧
      (x.set_picture v).birthday = x.birthday ∧
      (x.set_picture v).zoneinfo = x.zoneinfo ∧
      (x.set_picture v).locale = x.locale ∧
      (x.set_picture v).phone_number = x.phone_number ∧
      (x.set_picture v).phone_number_verified = x.phone_number_verified ∧
      (x.set_picture v).address = x.address ∧
      (x.set_picture v).updated_at = x.updated_at) ∧
    (∀ (x : StandardClaims String) (v : Option (LocalizedClaim String)),
      (x.set_website v).sub = x.sub ∧
      (x.set_website v).name = x.name ∧
      (x.set_website v).given_name = x.given_name ∧
      (x.set_website v).family_name = x.family_name ∧
      (x.set_website v).middle_name = x.middle_name ∧
      (x.set_website v).nickname = x.nickname ∧
      (x.set_website v).preferred_username = x.preferred_username ∧
      (x.set_website v).profile = x.profile ∧
      (x.set_website v).picture = x.picture ∧
      (x.set_website v).website = v ∧
      (x.set_website v).email = x.email ∧
      (x.set_website v).email_verified = x.email_verified ∧
      (x.set_website v).gender = x.gender ∧
      (x.set_website v).birthday = x.birthday ∧
      (x.set_website v).zoneinfo = x.zoneinfo ∧
      (x.set_website v).locale = x.locale ∧
      (x.set_website v).phone_number = x.phone_number ∧
      (x.set_website v).phone_number_verified = x.phone_number_verified ∧
      (x.set_website v).address = x.address ∧
      (x.set_website v).updated_at = x.updated_at) ∧
    (∀ (x : StandardClaims String) (v : Option String),
      (x.set_email v).sub = x.sub ∧
      (x.set_email v).name = x.name ∧
      (x.set_email v).given_name = x.given_name ∧
      (x.set_email v).family_name = x.family_name ∧
      (x.set_email v).middle_name = x.middle_name ∧
      (x.set_email v).nickname = x.nickname ∧
      (x.set_email v).preferred_username = x.preferred_username ∧
      (x.set_email v).profile = x.profile ∧
      (x.set_email v).picture = x.picture ∧
      (x.set_email v).website = x.website ∧
      (x.set_email v).email = v ∧
      (x.set_email v).email_verified = x.email_verified ∧
      (x.set_email v).gender = x.gender ∧
      (x.set_email v).birthday = x.birthday ∧
      (x.set_email v).zoneinfo = x.zoneinfo ∧
      (x.set_email v).locale = x.locale ∧
      (x.set_email v).phone_number = x.phone_number ∧
      (x.set_email v).phone_number_verified = x.phone_number_verified ∧
      (x.set_email v).address = x.address ∧
      (x.set_email v).updated_at = x.updated_at) ∧
    (∀ (x : StandardClaims String) (v : Option Bool),
      (x.set_email_verified v).sub = x.sub ∧
      (x.set_email_verified v).name = x.name ∧
      (x.set_email_verified v).given_name = x.given_name ∧
      (x.set_email_verified v).family_name = x.family_name ∧
      (x.set_email_verified v).middle_name = x.middle_name ∧
      (x.set_email_verified v).nickname = x.nickname ∧
      (x.set_email_verified v).preferred_username = x.preferred_username ∧
      (x.set_email_verified v).profile = x.profile ∧
      (x.set_email_verified v).picture = x.picture ∧
      (x.set_email_verified v).website = x.website ∧
      (x.set_email_verified v).email = x.email ∧
      (x.set_email_verified v).email_verified = v ∧
      (x.set_email_verified v).gender = x.gender ∧
      (x.set_email_verified v).birthday = x.birthday ∧
      (x.set_email_verified v).zoneinfo = x.zoneinfo ∧
      (x.set_email_verified v).locale = x.locale ∧
      (x.set_email_verified v).phone_number = x.phone_number ∧
      (x.set_email_verified v).phone_number_verified = x.phone_number_verified ∧
      (x.set_email_verified v).address = x.address ∧
      (x.set_email_verified v).updated_at = x.updated_at) ∧
    (∀ (x : StandardClaims String) (v : Option String),
      (x.set_gender v).sub = x.sub ∧
      (x.set_gender v).name = x.name ∧
      (x.set_gender v).given_name = x.given_name ∧
      (x.set_gender v).family_name = x.family_name ∧
      (x.set_gender v).middle_name = x.middle_name ∧
      (x.set_gender v).nickname = x.nickname ∧
      (x.set_gender v).preferred_username = x.preferred_username ∧
      (x.set_gender v).profile = x.profile ∧
      (x.set_gender v).picture = x.picture ∧
      (x.set_gender v).website = x.website ∧
      (x.set_gender v).email = x.email ∧
      (x.set_gender v).email_verified = x.email_verified ∧
      (x.set_gender v).gender = v ∧
      (x.set_gender v).birthday = x.birthday ∧
      (x.set_gender v).zoneinfo = x.zoneinfo ∧
      (x.set_gender v).locale = x.locale ∧
      (x.set_gender v).phone_number = x.phone_number ∧
      (x.set_gender v).phone_number_verified = x.phone_number_verified ∧
      (x.set_gender v).address = x.address ∧
      (x.set_gender v).updated_at = x.updated_at) ∧
    (∀ (x : StandardClaims String) (v : Option String),
      (x.set_birthday v).sub = x.sub ∧
      (x.set_birthday v).name = x.name ∧
      (x.set_birthday v).given_name = x.given_name ∧
      (x.set_birthday v).family_name = x.family_name ∧
      (x.set_birthday v).middle_name = x.middle_name ∧
      (x.set_birthday v).nickname = x.nickname ∧
      (x.set_birthday v).preferred_username = x.preferred_username ∧
      (x.set_birthday v).profile = x.profile ∧
      (x.set_birthday v).picture = x.picture ∧
      (x.set_birthday v).website = x.website ∧
      (x.set_birthday v).email = x.email ∧
      (x.set_birthday v).email_verified = x.email_verified ∧
      (x.set_birthday v).gender = x.gender ∧
      (x.set_birthday v).birthday = v ∧
      (x.set_birthday v).zoneinfo = x.zoneinfo ∧
      (x.set_birthday v).locale = x.locale ∧
      (x.set_birthday v).phone_number = x.phone_number ∧
      (x.set_birthday v).phone_number_verified = x.phone_number_verified ∧
      (x.set_birthday v).address = x.address ∧
      (x.set_birthday v).updated_at = x.updated_at) ∧
    (∀ (x : StandardClaims String) (v : Option String),
      (x.set_zoneinfo v).sub = x.sub ∧
      (x.set_zoneinfo v).name = x.name ∧
      (x.set_zoneinfo v).given_name = x.given_name ∧
      (x.set_zoneinfo v).family_name = x.family_name ∧
      (x.set_zoneinfo v).middle_name = x.middle_name ∧
      (x.set_zoneinfo v).nickname = x.nickname ∧
      (x.set_zoneinfo v).preferred_username = x.preferred_username ∧
      (x.set_zoneinfo v).profile = x.profile ∧
      (x.set_zoneinfo v).picture = x.picture ∧
      (x.set_zoneinfo v).website = x.website ∧
      (x.set_zoneinfo v).email = x.email ∧
      (x.set_zoneinfo v).email_verified = x.email_verified ∧
      (x.set_zoneinfo v).gender = x.gender ∧
      (x.set_zoneinfo v).birthday = x.birthday ∧
      (x.set_zoneinfo v).zoneinfo = v ∧
      (x.set_zoneinfo v).locale = x.locale ∧
      (x.set_zoneinfo v).phone_number = x.phone_number ∧
      (x.set_zoneinfo v).phone_number_verified = x.phone_number_verified ∧
      (x.set_zoneinfo v).address = x.address ∧
      (x.set_zoneinfo v).updated_at = x.updated_at) ∧
    (∀ (x : StandardClaims String) (v : Option String),
      (x.set_locale v).sub = x.sub ∧
      (x.set_locale v).name = x.name ∧
      (x.set_locale v).given_name = x.given_name ∧
      (x.set_locale v).family_name = x.family_name ∧
      (x.set_locale v).middle_name = x.middle_name ∧
      (x.set_locale v).nickname = x.nickname ∧
      (x.set_locale v).preferred_username = x.preferred_username ∧
      (x.set_locale v).profile = x.profile ∧
      (x.set_locale v).picture = x.picture ∧
      (x.set_locale v).website = x.website ∧
      (x.set_locale v).email = x.email ∧
      (x.set_locale v).email_verified = x.email_verified ∧
      (x.set_locale v).gender = x.gender ∧
      (x.set_locale v).birthday = x.birthday ∧
      (x.set_locale v).zoneinfo = x.zoneinfo ∧
      (x.set_locale v).locale = v ∧
      (x.set_locale v).phone_number = x.phone_number ∧
      (x.set_locale v).phone_number_verified = x.phone_number_verified ∧
      (x.set_locale v).address = x.address ∧
      (x.set_locale v).updated_at = x.updated_at) ∧
    (∀ (x : StandardClaims String) (v : Option String),
      (x.set_phone_number v).sub = x.sub ∧
      (x.set_phone_number v).name = x.name ∧
      (x.set_phone_number v).given_name = x.given_name ∧
      (x.set_phone_number v).family_name = x.family_name ∧
      (x.set_phone_number v).middle_name = x.middle_name ∧
      (x.set_phone_number v).nickname = x.nickname ∧
      (x.set_phone_number v).preferred_username = x.preferred_username ∧
      (x.set_phone_number v).profile = x.profile ∧
      (x.set_phone_number v).picture = x.picture ∧
      (x.set_phone_number v).website = x.website ∧
      (x.set_phone_number v).email = x.email ∧
      (x.set_phone_number v).email_verified = x.email_verified ∧
      (x.set_phone_number v).gender = x.gender ∧
      (x.set_phone_number v).birthday = x.birthday ∧
      (x.set_phone_number v).zoneinfo = x.zoneinfo ∧
      (x.set_phone_number v).locale = x.locale ∧
      (x.set_phone_number v).phone_number = v ∧
      (x.set_phone_number v).phone_number_verified = x.phone_number_verified ∧
      (x.set_phone_number v).address = x.address ∧
      (x.set_phone_number v).updated_at = x.updated_at) ∧
    (∀ (x : StandardClaims String) (v : Option Bool),
      (x.set_phone_number_verified v).sub = x.sub ∧
      (x.set_phone_number_verified v).name = x.name ∧
      (x.set_phone_number_verified v).given_name = x.given_name ∧
      (x.set_phone_number_verified v).family_name = x.family_name ∧
      (x.set_phone_number_verified v).middle_name = x.middle_name ∧
      (x.set_phone_number_verified v).nickname = x.nickname ∧
      (x.set_phone_number_verified v).preferred_username = x.preferred_username ∧
      (x.set_phone_number_verified v).profile = x.profile ∧
      (x.set_phone_number_verified v).picture = x.picture ∧
      (x.set_phone_number_verified v).website = x.website ∧
      (x.set_phone_number_verified v).email = x.email ∧
      (x.set_phone_number_verified v).email_verified = x.email_verified ∧
      (x.set_phone_number_verified v).gender = x.gender ∧
      (x.set_phone_number_verified v).birthday = x.birthday ∧
      (x.set_phone_number_verified v).zoneinfo = x.zoneinfo ∧
      (x.set_phone_number_verified v).locale = x.locale ∧
      (x.set_phone_number_verified v).phone_number = x.phone_number ∧
      (x.set_phone_number_verified v).phone_number_verified = v ∧
      (x.set_phone_number_verified v).address = x.address ∧
      (x.set_phone_number_verified v).updated_at = x.updated_at) ∧
    (∀ (x : StandardClaims String) (v : Option AddressClaim),
      (x.set_address v).sub = x.sub ∧
      (x.set_address v).name = x.name ∧
      (x.set_address v).given_name = x.given_name ∧
      (x.set_address v).family_name = x.family_name ∧
      (x.set_address v).middle_name = x.middle_name ∧
      (x.set_address v).nickname = x.nickname ∧
      (x.set_address v).preferred_username = x.preferred_username ∧
      (x.set_address v).profile = x.profile ∧
      (x.set_address v).picture = x.picture ∧
      (x.set_address v).website = x.website ∧
      (x.set_address v).email = x.email ∧
      (x.set_address v).email_verified = x.email_verified ∧
      (x.set_address v).gender = x.gender ∧
      (x.set_address v).birthday = x.birthday ∧
      (x.set_address v).zoneinfo = x.zoneinfo ∧
      (x.set_address v).locale = x.locale ∧
      (x.set_address v).phone_number = x.phone_number ∧
      (x.set_address v).phone_number_verified = x.phone_number_verified ∧
      (x.set_address v).address = v ∧
      (x.set_address v).updated_at = x.updated_at) ∧
    (∀ (x : StandardClaims String) (v : Option Int),
      (x.set_updated_at v).sub = x.sub ∧
      (x.set_updated_at v).name = x.name ∧
      (x.set_updated_at v).given_name = x.given_name ∧
      (x.set_updated_at v).family_name = x.family_name ∧
      (x.set_updated_at v).middle_name = x.middle_name ∧
      (x.set_updated_at v).nickname = x.nickname ∧
      (x.set_updated_at v).preferred_username = x.preferred_username ∧
      (x.set_updated_at v).profile = x.profile ∧
      (x.set_updated_at v).picture = x.picture ∧
      (x.set_updated_at v).website = x.website ∧
      (x.set_updated_at v).email = x.email ∧
      (x.set_updated_at v).email_verified = x.email_verified ∧
      (x.set_updated_at v).gender = x.gender ∧
      (x.set_updated_at v).birthday = x.birthday ∧
      (x.set_updated_at v).zoneinfo = x.zoneinfo ∧
      (x.set_updated_at v).locale = x.locale ∧
      (x.set_updated_at v).phone_number = x.phone_number ∧
      (x.set_updated_at v).phone_number_verified = x.phone_number_verified ∧
      (x.set_updated_at v).address = x.address ∧
      (x.set_updated_at v).updated_at = v) :=
  ⟨fun _ => ⟨rfl, rfl, rfl, rfl, rfl, rfl, rfl, rfl, rfl, rfl, rfl, rfl, rfl, rfl, rfl, rfl, rfl, rfl, rfl, rfl⟩,
    fun _ _ => ⟨rfl, rfl, rfl, rfl, rfl, rfl, rfl, rfl, rfl, rfl, rfl, rfl, rfl, rfl, rfl, rfl, rfl, rfl, rfl, rfl⟩,
    fun _ _ => ⟨rfl, rfl, rfl, rfl, rfl, rfl, rfl, rfl, rfl, rfl, rfl, rfl, rfl, rfl, rfl, rfl, rfl, rfl, rfl, rfl⟩,
    fun _ _ => ⟨rfl, rfl, rfl, rfl, rfl, rfl, rfl, rfl, rfl, rfl, rfl, rfl, rfl, rfl, rfl, rfl, rfl, rfl, rfl, rfl⟩,
    fun _ _ => ⟨rfl, rfl, rfl, rfl, rfl, rfl, rfl, rfl, rfl, rfl, rfl, rfl, rfl, rfl, rfl, rfl, rfl, rfl, rfl, rfl⟩,
    fun _ _ => ⟨rfl, rfl, rfl, rfl, rfl, rfl, rfl, rfl, rfl, rfl, rfl, rfl, rfl, rfl, rfl, rfl, rfl, rfl, rfl, rfl⟩,
    fun _ _ => ⟨rfl, rfl, rfl, rfl, rfl, rfl, rfl, rfl, rfl, rfl, rfl, rfl, rfl, rfl, rfl, rfl, rfl, rfl, rfl, rfl⟩,
    fun _ _ => ⟨rfl, rfl, rfl, rfl, rfl, rfl, rfl, rfl, rfl, rfl, rfl, rfl, rfl, rfl, rfl, rfl, rfl, rfl, rfl, rfl⟩,
    fun _ _ => ⟨rfl, rfl, rfl, rfl, rfl, rfl, rfl, rfl, rfl, rfl, rfl, rfl, rfl, rfl, rfl, rfl, rfl, rfl, rfl, rfl⟩,
    fun _ _ => ⟨rfl, rfl, rfl, rfl, rfl, rfl, rfl, rfl, rfl, rfl, rfl, rfl, rfl, rfl, rfl, rfl, rfl, rfl, rfl, rfl⟩,
    fun _ _ => ⟨rfl, rfl, rfl, rfl, rfl, rfl, rfl, rfl, rfl, rfl, rfl, rfl, rfl, rfl, rfl, rfl, rfl, rfl, rfl, rfl⟩,
    fun _ _ => ⟨rfl, rfl, rfl, rfl, rfl, rfl, rfl, rfl, rfl, rfl, rfl, rfl, rfl, rfl, rfl, rfl, rfl, rfl, rfl, rfl⟩,
    fun _ _ => ⟨rfl, rfl, rfl, rfl, rfl, rfl, rfl, rfl, rfl, rfl, rfl, rfl, rfl, rfl, rfl, rfl, rfl, rfl, rfl, rfl⟩,
    fun _ _ => ⟨rfl, rfl, rfl, rfl, rfl, rfl, rfl, rfl, rfl, rfl, rfl, rfl, rfl, rfl, rfl, rfl, rfl, rfl, rfl, rfl⟩,
    fun _ _ => ⟨rfl, rfl, rfl, rfl, rfl, rfl, rfl, rfl, rfl, rfl, rfl, rfl, rfl, rfl, rfl, rfl, rfl, rfl, rfl, rfl⟩,
    fun _ _ => ⟨rfl, rfl, rfl, rfl, rfl, rfl, rfl, rfl, rfl, rfl, rfl, rfl, rfl, rfl, rfl, rfl, rfl, rfl, rfl, rfl⟩,
    fun _ _ => ⟨rfl, rfl, rfl, rfl, rfl, rfl, rfl, rfl, rfl, rfl, rfl, rfl, rfl, rfl, rfl, rfl, rfl, rfl, rfl, rfl⟩,
    fun _ _ => ⟨rfl, rfl, rfl, rfl, rfl, rfl, rfl, rfl, rfl, rfl, rfl, rfl, rfl, rfl, rfl, rfl, rfl, rfl, rfl, rfl⟩,
    fun _ _ => ⟨rfl, rfl, rfl, rfl, rfl, rfl, rfl, rfl, rfl, rfl, rfl, rfl, rfl, rfl, rfl, rfl, rfl, rfl, rfl, rfl⟩,
    fun _ _ => ⟨rfl, rfl, rfl, rfl, rfl, rfl, rfl, rfl, rfl, rfl, rfl, rfl, rfl, rfl, rfl, rfl, rfl, rfl, rfl, rfl⟩,
    fun _ _ => ⟨rfl, rfl, rfl, rfl, rfl, rfl, rfl, rfl, rfl, rfl, rfl, rfl, rfl, rfl, rfl, rfl, rfl, rfl, rfl, rfl⟩⟩

/-- C10: serializing an `AddressClaim` omits every `none` sub-field, so
the all-unset address serializes to an object with no keys; deserializing
an empty object succeeds and yields the all-unset address. -/
theorem c10_address_skip_none (a : AddressClaim) :
    (a.formatted = none →
      "formatted" ∉ (encodeAddressKVs a).map Prod.fst) ∧
    (a.street_address = none →
      "street_address" ∉ (encodeAddressKVs a).map Prod.fst) ∧
    (a.locality = none →
      "locality" ∉ (encodeAddressKVs a).map Prod.fst) ∧
    (a.region = none →
      "region" ∉ (encodeAddressKVs a).map Prod.fst) ∧
    (a.postal_code = none →
      "postal_code" ∉ (encodeAddressKVs a).map Prod.fst) ∧
    (a.country = none →
      "country" ∉ (encodeAddressKVs a).map Prod.fst) ∧
    encodeAddressKVs ({} : AddressClaim) = [] ∧
    decAddress "address" (Value.obj []) = .ok ({} : AddressClaim) := by
  obtain ⟨f, s, l, r, p, c⟩ := a
  cases f <;> cases s <;> cases l <;> cases r <;> cases p <;> cases c <;>
    refine ⟨?_, ?_, ?_, ?_, ?_, ?_, rfl, rfl⟩ <;> intro h <;>
    first
      | exact Option.noConfusion h
      | simp [encodeAddressKVs, optKV]

/-- Witness for C10: the all-unset address emits no `formatted` key and
the empty object decodes to it. -/
theorem c10_address_skip_none_witness :
    (({} : AddressClaim).formatted = none) ∧
    "formatted" ∉ (encodeAddressKVs ({} : AddressClaim)).map Prod.fst ∧
    decAddress "address" (Value.obj []) = .ok ({} : AddressClaim) :=
  ⟨rfl, (c10_address_skip_none {}).1 rfl,
    (c10_address_skip_none {}).2.2.2.2.2.2.2⟩


end Claims
